import Mathlib

/-!
Verification of the rendering and airport-index core of the weather CLI
(`src/weather.py`) against its natural-language specification.

Strings are embedded as lists of Unicode code points (`List Char`),
written `PyStr`.  External collaborators that the source calls but that
are not part of this repository — the `wcwidth` library, the
`unicodedata` module, and the Python builtins `float` / `int` applied to
strings — are modelled from the specification and their documented
contracts; everything else is translated directly from the source.
-/

abbrev PyStr := List Char

/-- ASCII whitespace, as recognised by Python's `str.strip` / `str.split`
(the Unicode whitespace beyond ASCII is not modelled; no input in this
development contains it). -/
def isPyWs (c : Char) : Bool :=
  c = ' ' || c = '\t' || c = '\n' || c = '\r' || c.toNat = 11 || c.toNat = 12

/-- Python `str.strip()` restricted to ASCII whitespace. -/
def pyStrip (s : PyStr) : PyStr :=
  ((s.dropWhile isPyWs).reverse.dropWhile isPyWs).reverse

/-- ASCII uppercase conversion; Python `str.upper()` on the ASCII
alphanumeric codes that occur in airport data. -/
def upperChar (c : Char) : Char :=
  if 'a' ≤ c ∧ c ≤ 'z' then Char.ofNat (c.toNat - 32) else c

/-- Python `str.upper()` (ASCII fragment). -/
def pyUpperStr (s : PyStr) : PyStr := s.map upperChar

/-- ASCII lowercase conversion. -/
def lowerChar (c : Char) : Char :=
  if 'A' ≤ c ∧ c ≤ 'Z' then Char.ofNat (c.toNat + 32) else c

/-- Python `str.lower()` (ASCII fragment). -/
def pyLowerStr (s : PyStr) : PyStr := s.map lowerChar

def isDigitChar (c : Char) : Bool := 48 ≤ c.toNat && c.toNat ≤ 57

/-- Python `str.split()` with no argument: split on runs of whitespace,
dropping empty pieces.  The first argument is the remaining input, the
second the (reversed) word currently being accumulated. -/
def splitWsAux : PyStr → PyStr → List PyStr
  | [], acc => if acc.isEmpty then [] else [acc.reverse]
  | c :: rest, acc =>
    if isPyWs c then
      if acc.isEmpty then splitWsAux rest [] else acc.reverse :: splitWsAux rest []
    else
      splitWsAux rest (c :: acc)

/-- Python `str.split()` with no argument. -/
def splitWs (s : PyStr) : List PyStr := splitWsAux s []

/-- Python `" ".join(parts)`. -/
def joinSpace : List PyStr → PyStr
  | [] => []
  | [x] => x
  | x :: xs => x ++ ' ' :: joinSpace xs

/-- Python `s.split(" ", 1)` when `" " in s`: split at the first space
(`none` when the string contains no space). -/
def splitFirstSpace : PyStr → Option (PyStr × PyStr)
  | [] => none
  | c :: rest =>
    if c = ' ' then some ([], rest)
    else (splitFirstSpace rest).map (fun p => (c :: p.1, p.2))

/-- Modelled from the spec: the per-code-point terminal column width used
by the external `wcwidth` library (a dependency, not code of this
repository).  Per the spec, zero-width code points (combining marks,
zero-width spaces/joiners, variation selectors) occupy 0 columns, wide
East-Asian and emoji code points occupy 2 columns, anything else 1; and
per the library's documented contract, control characters are
unclassifiable and reported as `-1`. -/
def wcwidthChar (c : Char) : Int :=
  let n := c.toNat
  if n = 0 then 0
  else if n < 32 ∨ (127 ≤ n ∧ n < 160) then -1
  else if (0x0300 ≤ n ∧ n ≤ 0x036F) ∨ (0x200B ≤ n ∧ n ≤ 0x200F) ∨
          (0xFE00 ≤ n ∧ n ≤ 0xFE0F) then 0
  else if (0x1100 ≤ n ∧ n ≤ 0x115F) ∨ (0x2E80 ≤ n ∧ n ≤ 0xA4CF) ∨
          (0xAC00 ≤ n ∧ n ≤ 0xD7A3) ∨ (0xF900 ≤ n ∧ n ≤ 0xFAFF) ∨
          (0xFF00 ≤ n ∧ n ≤ 0xFF60) ∨ (0x2600 ≤ n ∧ n ≤ 0x27BF) ∨
          (0x1F300 ≤ n ∧ n ≤ 0x1FAFF) then 2
  else 1

/-- Modelled from the spec: `wcwidth.wcswidth(s)` — the sum of the
per-code-point widths, or `-1` when the string contains an
unclassifiable (control) code point. -/
def wcswidth (s : PyStr) : Int :=
  if s.any (fun c => wcwidthChar c < 0) then -1
  else ((s.map wcwidthChar).foldr (· + ·) 0)

/-- Source `display_width` (src/weather.py lines 542-546): the wcswidth
of the text, falling back to the character count when wcswidth reports
the text unclassifiable. -/
def display_width (text : PyStr) : Nat :=
  let width := wcswidth text
  if width < 0 then text.length else width.toNat

/-- Modelled from the spec: whether a code point's Unicode general
category has major class `S` (Symbol), as reported by the external
`unicodedata` module.  Covers the ASCII symbol characters and the symbol
blocks relevant to the weather labels (arrows through dingbats, and the
supplementary emoji blocks); the variation selectors are marks, not
symbols. -/
def isSymbolCat (c : Char) : Bool :=
  let n := c.toNat
  n = 0x24 || n = 0x2B || (0x3C ≤ n && n ≤ 0x3E) || n = 0x5E ||
  n = 0x60 || n = 0x7C || n = 0x7E || (0xA2 ≤ n && n ≤ 0xA9) ||
  (0x2190 ≤ n && n ≤ 0x2BFF) || (0x1F000 ≤ n && n ≤ 0x1FAFF)

/-- Source (src/weather.py lines 515-519): the loop that scans a token
left to right and stops at the first code point whose general category
is not Symbol.  Returns the index of that code point, or `0` when every
code point is a symbol (the loop then never breaks and the initial value
survives). -/
def glyphSplitIdxAux : PyStr → Nat → Option Nat
  | [], _ => none
  | c :: rest, i =>
    if isSymbolCat c then glyphSplitIdxAux rest (i + 1) else some i

/-- Source split point for a single-run weather token. -/
def glyphSplitIdx (s : PyStr) : Nat := (glyphSplitIdxAux s 0).getD 0

/-- Source (src/weather.py lines 515-522): icon is the prefix of the
token up to the split point, description the remainder. -/
def glyphSplit (s : PyStr) : PyStr × PyStr :=
  (s.take (glyphSplitIdx s), s.drop (glyphSplitIdx s))

/-- A Python float as observed by this program: a finite value or one of
the non-finite values.  A finite value is an exact decimal
`mantissa * 10 ^ exp`, kept canonical (the mantissa is never a multiple
of ten, and zero is `0 * 10 ^ 0`), so that structural equality coincides
with numeric equality on everything the source parses; binary rounding
is not modelled, since no claim depends on it. -/
inductive PyFloat where
  | finite (mantissa exp : Int)
  | inf
  | neginf
  | nan
deriving DecidableEq, Repr

/-- Truncation toward zero, the behaviour of Python `int()` on a finite
float. -/
def pyFloatTrunc (m e : Int) : Int :=
  if 0 ≤ e then m * 10 ^ e.toNat else Int.tdiv m (10 ^ (-e).toNat)

/-- Numeric value of a digit string. -/
def digitsVal (ds : PyStr) : Nat :=
  ds.foldl (fun a c => a * 10 + (c.toNat - 48)) 0

/-- The canonical finite float for signed digits `digits` scaled by
`10 ^ e`: trailing zero digits move into the exponent, and zero
normalises to `0 * 10 ^ 0`. -/
def mkFinite (sg : Int) (digits : PyStr) (e : Int) : PyFloat :=
  let stripped := (digits.reverse.dropWhile (fun c => c = '0')).reverse
  if stripped.isEmpty then .finite 0 0
  else .finite (sg * (digitsVal stripped : Int))
    (e + ((digits.length : Int) - (stripped.length : Int)))

/-- Modelled from the spec: the exponent part of Python's `float()`
grammar — empty, or `e`/`E`, an optional sign and at least one digit,
with nothing after it. -/
def parseExpPart (r : PyStr) : Option Int :=
  match r with
  | [] => some 0
  | c :: r2 =>
    if c = 'e' ∨ c = 'E' then
      let sg : Int := match r2 with | '-' :: _ => -1 | _ => 1
      let r3 : PyStr := match r2 with | '-' :: t => t | '+' :: t => t | _ => r2
      let ds := r3.takeWhile isDigitChar
      if ds.isEmpty ∨ ¬(r3.drop ds.length).isEmpty then none
      else some (sg * (digitsVal ds : Int))
    else none

/-- Modelled from the spec: the decimal part of Python's `float()`
grammar after the optional sign — an integer part, an optional point and
fraction part (at least one digit in the mantissa overall), and an
optional exponent. -/
def parseDecimal (sg : Int) (t : PyStr) : Option PyFloat :=
  let ip := t.takeWhile isDigitChar
  let r1 := t.drop ip.length
  match r1 with
  | '.' :: r2 =>
    let fp := r2.takeWhile isDigitChar
    let r3 := r2.drop fp.length
    if ip.isEmpty ∧ fp.isEmpty then none
    else
      match parseExpPart r3 with
      | none => none
      | some e => some (mkFinite sg (ip ++ fp) (e - (fp.length : Int)))
  | _ =>
    if ip.isEmpty then none
    else
      match parseExpPart r1 with
      | none => none
      | some e => some (mkFinite sg ip e)

/-- Modelled from the spec: Python's builtin `float(str)` (an external
builtin, not code of this repository): strip whitespace, read an
optional sign, then either `inf` / `infinity` / `nan` (case-insensitive)
or a decimal number; `none` models the `ValueError` the source catches.
(Underscored digit groups and non-ASCII digits are not modelled.) -/
def pyParseFloat (s : PyStr) : Option PyFloat :=
  let t := pyStrip s
  let sg : Int := match t with | '-' :: _ => -1 | _ => 1
  let t2 : PyStr := match t with | '-' :: r => r | '+' :: r => r | _ => t
  let tl := pyLowerStr t2
  if tl = "inf".data ∨ tl = "infinity".data then
    some (if sg = 1 then .inf else .neginf)
  else if tl = "nan".data then some .nan
  else parseDecimal sg t2

/-- Modelled from the spec: Python's builtin `int(str)`: strip, optional
sign, at least one digit and nothing else. -/
def pyParseIntStr (s : PyStr) : Option Int :=
  let t := pyStrip s
  let sg : Int := match t with | '-' :: _ => -1 | _ => 1
  let t2 : PyStr := match t with | '-' :: r => r | '+' :: r => r | _ => t
  if t2.isEmpty ∨ ¬(t2.all isDigitChar) then none
  else some (sg * (digitsVal t2 : Int))

/-- Source (src/weather.py lines 788-791): parse an elevation field.
`""` (or an absent column) yields `None`; `float()` failure is caught as
`ValueError` and yields `None`; `int(nan)` raises `ValueError`, also
caught; but `int(inf)` raises `OverflowError`, which the `except
(TypeError, ValueError)` does NOT catch — it escapes to the outer
handler and aborts the whole build, modelled as `.error`. -/
def parseElev (s : PyStr) : Except Unit (Option Int) :=
  if s.isEmpty then .ok none
  else
    match pyParseFloat s with
    | none => .ok none
    | some (.finite m e) => .ok (some (pyFloatTrunc m e))
    | some .nan => .ok none
    | some .inf => .error ()
    | some .neginf => .error ()

/-- The JSON value carried in the provider's `weathercode` field, as the
source can observe it: a number, a string, or null. -/
inductive WCode where
  | num (v : PyFloat)
  | str (s : PyStr)
  | null
deriving DecidableEq, Repr

/-- Python `int(code)` on such a value, with its exact failure modes: a
finite number truncates toward zero; a string is parsed (failure raises
`ValueError`); `int(nan)` raises `ValueError` and `int(None)` raises
`TypeError` — both caught by the source's `except (TypeError,
ValueError)` and modelled as `.ok none`; but `int(inf)` raises
`OverflowError`, which that clause does NOT catch, so the exception
escapes `weather_code_to_emoji` — modelled as `.error`. -/
def pyToInt : WCode → Except Unit (Option Int)
  | .num (.finite m e) => .ok (some (pyFloatTrunc m e))
  | .num .nan => .ok none
  | .num .inf => .error ()
  | .num .neginf => .error ()
  | .str s => .ok (pyParseIntStr s)
  | .null => .ok none

/-- Source `weather_code_to_emoji` (src/weather.py lines 294-314).  The
`except (TypeError, ValueError)` at lines 296-299 turns a failed
`int(code)` into the unknown label, but the `OverflowError` raised by an
infinite numeric code is not in that clause and propagates out of the
function. -/
def weather_code_to_emoji (code : WCode) (with_emoji : Bool) :
    Except Unit PyStr :=
  match pyToInt code with
  | .error e => .error e
  | .ok none => .ok (if with_emoji then "❓ Unknown".data else "Unknown".data)
  | .ok (some c) => .ok (
    if c = 0 then (if with_emoji then "☀️ Clear".data else "Clear".data)
    else if c = 1 ∨ c = 2 ∨ c = 3 then
      (if with_emoji then "⛅ Partly Cloudy".data else "Partly Cloudy".data)
    else if c = 45 ∨ c = 48 then (if with_emoji then "🌫️ Fog".data else "Fog".data)
    else if c = 51 ∨ c = 53 ∨ c = 55 ∨ c = 56 ∨ c = 57 then
      (if with_emoji then "🌦️ Drizzle".data else "Drizzle".data)
    else if c = 61 ∨ c = 63 ∨ c = 65 ∨ c = 66 ∨ c = 67 ∨ c = 80 ∨ c = 81 ∨ c = 82 then
      (if with_emoji then "🌧️ Rain".data else "Rain".data)
    else if c = 71 ∨ c = 73 ∨ c = 75 ∨ c = 77 ∨ c = 85 ∨ c = 86 then
      (if with_emoji then "❄️ Snow".data else "Snow".data)
    else if c = 95 ∨ c = 96 ∨ c = 99 then
      (if with_emoji then "⛈️ Thunderstorm".data else "Thunderstorm".data)
    else (if with_emoji then "❓ Unknown".data else "Unknown".data))

/-- Claim-side classifier table, written from the spec's words: a closed
set of ranges over the parsed numeric code, with every other input —
including non-numeric input — mapped to the unknown label.  The claim
asserts this table holds deterministically without raising; it is total
by construction, which the code falsifies on infinite numeric codes. -/
def classifySpec (code : WCode) (with_emoji : Bool) : PyStr :=
  match pyToInt code with
  | .ok (some c) =>
    if c ∈ ([0] : List Int) then (if with_emoji then "☀️ Clear".data else "Clear".data)
    else if c ∈ ([1, 2, 3] : List Int) then
      (if with_emoji then "⛅ Partly Cloudy".data else "Partly Cloudy".data)
    else if c ∈ ([45, 48] : List Int) then
      (if with_emoji then "🌫️ Fog".data else "Fog".data)
    else if c ∈ ([51, 53, 55, 56, 57] : List Int) then
      (if with_emoji then "🌦️ Drizzle".data else "Drizzle".data)
    else if c ∈ ([61, 63, 65, 66, 67, 80, 81, 82] : List Int) then
      (if with_emoji then "🌧️ Rain".data else "Rain".data)
    else if c ∈ ([71, 73, 75, 77, 85, 86] : List Int) then
      (if with_emoji then "❄️ Snow".data else "Snow".data)
    else if c ∈ ([95, 96, 99] : List Int) then
      (if with_emoji then "⛈️ Thunderstorm".data else "Thunderstorm".data)
    else (if with_emoji then "❓ Unknown".data else "Unknown".data)
  | _ => if with_emoji then "❓ Unknown".data else "Unknown".data

/-- A Python dict keyed by strings, embedded as an insertion-ordered
association list with unique keys (assignment replaces in place,
otherwise appends). -/
abbrev PyDict (α : Type) := List (PyStr × α)

def dictKeys {α : Type} (m : PyDict α) : List PyStr := m.map (·.1)

/-- Python `d.get(k)` / `d[k]`: the value at the first matching key. -/
def dget {α : Type} : PyDict α → PyStr → Option α
  | [], _ => none
  | (k, v) :: rest, key => if k = key then some v else dget rest key

/-- Python `d[k] = v`: replace the entry in place when the key is
present, append otherwise. -/
def dset {α : Type} (m : PyDict α) (k : PyStr) (v : α) : PyDict α :=
  if k ∈ dictKeys m then
    m.map (fun kv => if kv.1 = k then (k, v) else kv)
  else m ++ [(k, v)]

/-- The canonical in-memory airport record, with the exact fields the
source's dict literals carry (src/weather.py lines 793-808). -/
structure AirportRecord where
  name : PyStr
  city : PyStr
  lat : PyFloat
  lon : PyFloat
  icao_code : PyStr
  iata_code : PyStr
  iso_country : PyStr
  iso_region : PyStr
  elevation_ft : Option Int
  type : PyStr
  scheduled_service : PyStr
  local_code : PyStr
  gps_code : PyStr
  faa_lid : PyStr
deriving DecidableEq, Repr

/-- A normalized source row, as produced by the CSV `DictReader` feeding
`update_airports` (src/weather.py lines 766-780): every field a raw
string. -/
structure Row where
  icao_code : PyStr
  iata_code : PyStr
  name : PyStr
  municipality : PyStr
  iso_country : PyStr
  iso_region : PyStr
  local_code : PyStr
  gps_code : PyStr
  elevation_ft : PyStr
  type : PyStr
  scheduled_service : PyStr
  latitude_deg : PyStr
  longitude_deg : PyStr
deriving DecidableEq, Repr

/-- The record `update_airports` registers for a valid row, given the
parsed coordinates and elevation (src/weather.py lines 793-808; the same
dict literal is used at all four registration sites). -/
def recordOf (row : Row) (lat lon : PyFloat) (elev : Option Int) : AirportRecord :=
  { name := pyStrip row.name
    city := pyStrip row.municipality
    lat := lat
    lon := lon
    icao_code := pyUpperStr row.icao_code
    iata_code := pyUpperStr row.iata_code
    iso_country := pyStrip row.iso_country
    iso_region := pyStrip row.iso_region
    elevation_ft := elev
    type := pyStrip row.type
    scheduled_service := pyStrip row.scheduled_service
    local_code := pyStrip row.local_code
    gps_code := pyStrip row.gps_code
    faa_lid := pyStrip row.local_code }

/-- The four registration sites of the row loop (src/weather.py lines
792-859): register the record under the ICAO, IATA, local and GPS
codes, each `if` condition deduplicating only within the row. -/
def registerRow (airports : PyDict AirportRecord) (row : Row) (r : AirportRecord) :
    PyDict AirportRecord :=
  let icao := pyUpperStr row.icao_code
  let iata := pyUpperStr row.iata_code
  let localc := pyStrip row.local_code
  let gpsc := pyStrip row.gps_code
  let a1 := if icao ≠ [] then dset airports icao r else airports
  let a2 := if iata ≠ [] ∧ iata ≠ icao then dset a1 iata r else a1
  let a3 := if localc ≠ [] ∧ localc ≠ icao ∧ localc ≠ iata then dset a2 localc r else a2
  if gpsc ≠ [] ∧ gpsc ≠ icao ∧ gpsc ≠ iata ∧ gpsc ≠ localc then dset a3 gpsc r else a3

/-- One iteration of the row loop of `update_airports` (src/weather.py
lines 766-859): parse the coordinates (skip the row on failure), skip on
an empty name, parse the elevation (`.error` when `int(inf)` raises the
uncaught `OverflowError`), then register the record. -/
def processRow (airports : PyDict AirportRecord) (row : Row) :
    Except Unit (PyDict AirportRecord) :=
  match pyParseFloat row.latitude_deg, pyParseFloat row.longitude_deg with
  | some lat, some lon =>
    if (pyStrip row.name).isEmpty then .ok airports
    else
      match parseElev row.elevation_ft with
      | .error e => .error e
      | .ok elev => .ok (registerRow airports row (recordOf row lat lon elev))
  | _, _ => .ok airports

/-- One fold step of the build: earlier uncaught exceptions propagate. -/
def buildStep (om : Except Unit (PyDict AirportRecord)) (row : Row) :
    Except Unit (PyDict AirportRecord) :=
  om.bind (fun m => processRow m row)

/-- The index-building core of source `update_airports` (src/weather.py
lines 765-860): fold the row loop over the ingested rows, starting from
an empty dict.  `.error` models the run where an uncaught exception
aborts the build. -/
def update_airports (rows : List Row) : Except Unit (PyDict AirportRecord) :=
  rows.foldl buildStep (.ok [])

/-- The source's lookup (src/weather.py line 329):
`airports.get(airport_code.upper())` — case-insensitive, exact match. -/
def lookupCode (airports : PyDict AirportRecord) (code : PyStr) : Option AirportRecord :=
  dget airports (pyUpperStr code)

/-- A persisted JSON airport object, as written by `save_airports` and
read by `load_airports`: each field optional (`none` = key absent or
null).  `lat` / `lon` are typed as numbers, the shape `save_airports`
writes. -/
structure PersistedDict where
  name : Option PyStr
  city : Option PyStr
  lat : Option PyFloat
  lon : Option PyFloat
  icao_code : Option PyStr
  iata_code : Option PyStr
  iso_country : Option PyStr
  iso_region : Option PyStr
  elevation_ft : Option Int
  type : Option PyStr
  scheduled_service : Option PyStr
  local_code : Option PyStr
  gps_code : Option PyStr
  faa_lid : Option PyStr
deriving DecidableEq, Repr

/-- A value of the persisted JSON object: a dict-shaped record, a legacy
4-tuple `(name, city, lat, lon)`, or anything else (skipped by the
loader, src/weather.py lines 210-243 have no `else` branch). -/
inductive PersistedEntry where
  | dictE (d : PersistedDict)
  | tupleE (name city : PyStr) (lat lon : PyFloat)
  | badE
deriving DecidableEq, Repr

/-- Serialisation of one in-memory record by `save_airports`
(src/weather.py lines 255-271, the dict branch — the only shape the
build produces): every field written explicitly; `faa_lid` falls back to
`local_code`, which a built record always carries. -/
def persistRecord (r : AirportRecord) : PersistedDict :=
  { name := some r.name
    city := some r.city
    lat := some r.lat
    lon := some r.lon
    icao_code := some r.icao_code
    iata_code := some r.iata_code
    iso_country := some r.iso_country
    iso_region := some r.iso_region
    elevation_ft := r.elevation_ft
    type := some r.type
    scheduled_service := some r.scheduled_service
    local_code := some r.local_code
    gps_code := some r.gps_code
    faa_lid := some r.faa_lid }

/-- Source `save_airports` (src/weather.py lines 251-291): build the
JSON payload dict, keyed by the uppercased code. -/
def save_airports (airports : PyDict AirportRecord) : PyDict PersistedEntry :=
  airports.foldl
    (fun d kv => dset d (pyUpperStr kv.1) (.dictE (persistRecord kv.2))) []

/-- The record `load_airports` builds from a dict-shaped persisted entry
(src/weather.py lines 211-226): every field takes an explicit default;
`float(entry.get("lat", 0))` makes an absent coordinate `0.0`, and
`faa_lid` falls back to the persisted `local_code`. -/
def loadDict (d : PersistedDict) : AirportRecord :=
  { name := d.name.getD []
    city := d.city.getD []
    lat := d.lat.getD (.finite 0 0)
    lon := d.lon.getD (.finite 0 0)
    icao_code := d.icao_code.getD []
    iata_code := d.iata_code.getD []
    iso_country := d.iso_country.getD []
    iso_region := d.iso_region.getD []
    elevation_ft := d.elevation_ft
    type := d.type.getD []
    scheduled_service := d.scheduled_service.getD []
    local_code := d.local_code.getD []
    gps_code := d.gps_code.getD []
    faa_lid := d.faa_lid.getD (d.local_code.getD []) }

/-- Deserialisation of one persisted entry by `load_airports`
(src/weather.py lines 210-243): dict entries take explicit defaults,
tuple entries get empty metadata, anything else is skipped. -/
def loadEntry : PersistedEntry → Option AirportRecord
  | .dictE d => some (loadDict d)
  | .tupleE n c la lo =>
    some
      { name := n, city := c, lat := la, lon := lo
        icao_code := [], iata_code := [], iso_country := [], iso_region := []
        elevation_ft := none, type := [], scheduled_service := []
        local_code := [], gps_code := [], faa_lid := [] }
  | .badE => none

/-- Source `load_airports` (src/weather.py lines 201-248): rebuild the
in-memory dict from the persisted payload, uppercasing every key. -/
def load_airports (data : PyDict PersistedEntry) : PyDict AirportRecord :=
  data.foldl
    (fun m ke =>
      match loadEntry ke.2 with
      | some r => dset m (pyUpperStr ke.1) r
      | none => m) []

/-- Icon/description computation for one forecast day, as a function of
the classifier label (src/weather.py lines 504-531): a multi-word label
is split at the first space; a single-word label is split at the first
non-Symbol code point (empty icon falls back to the bare word); the
final `icon, desc` pair re-splits the normalised string at its first
space. -/
def weatherCellOf (ws0 : PyStr) : PyStr × PyStr :=
  let parts := splitWs ws0
  let ws1 :=
    if parts.length > 1 then
      (parts.getD 0 []) ++ ' ' :: joinSpace (parts.drop 1)
    else if parts.length = 1 then
      let s := parts.getD 0 []
      let k := glyphSplitIdx s
      let icon := s.take k
      let desc := s.drop k
      if icon.isEmpty then desc else icon ++ ' ' :: desc
    else ws0
  match splitFirstSpace ws1 with
  | some pr => pr
  | none => ([], ws1)

/-- The classifier label on the inputs where `weather_code_to_emoji`
does not raise.  On an infinite numeric code the source program dies of
the uncaught `OverflowError` before any rendering happens (see C4), so
the rendering embedding below is only ever exercised on non-raising
codes; there this function is exactly the source's label, and the
default branch is never reached by a run that renders. -/
def weatherLabel (code : WCode) (with_emoji : Bool) : PyStr :=
  match weather_code_to_emoji code with_emoji with
  | .ok l => l
  | .error _ => if with_emoji then "❓ Unknown".data else "Unknown".data

/-- Icon/description cells for one day's weather code. -/
def weatherCell (noEmoji : Bool) (wc : WCode) : PyStr × PyStr :=
  weatherCellOf (weatherLabel wc (!noEmoji))

/-- The parallel per-day arrays of the forecast response
(src/weather.py lines 479-485), already stringified where the source
interpolates them into f-strings. -/
structure Series where
  dates : List PyStr
  tmax : List PyStr
  tmin : List PyStr
  precip : List PyStr
  sunrises : List PyStr
  sunsets : List PyStr
  wcodes : List WCode

/-- Render options: the day count (clamped to 1-16 by the caller), the
`--no-emoji` flag, and the temperature unit suffix. -/
structure Opts where
  days : Nat
  noEmoji : Bool
  tempSym : PyStr

/-- Source `n = min(days, len(forecast_days))` (src/weather.py line 502). -/
def nDays (s : Series) (o : Opts) : Nat := min o.days s.dates.length

/-- Python `s[-5:]`. -/
def lastFive (x : PyStr) : PyStr := x.drop (x.length - 5)

/-- The per-day cell lists built by the loop at src/weather.py lines
503-541.  Out-of-range indexing of the unguarded parallel arrays (an
`IndexError` in the source) is not modelled; the claims below supply
series whose arrays cover the rendered days.  The sunrise/sunset arrays
are guarded in the source (`i < len(sunrises) and sunrises[i]`), which
coincides with the empty default here. -/
def weather_icons (s : Series) (o : Opts) : List PyStr :=
  (List.range (nDays s o)).map (fun i => (weatherCell o.noEmoji (s.wcodes.getD i .null)).1)

def weather_descs (s : Series) (o : Opts) : List PyStr :=
  (List.range (nDays s o)).map (fun i => (weatherCell o.noEmoji (s.wcodes.getD i .null)).2)

def date_strs (s : Series) (o : Opts) : List PyStr :=
  (List.range (nDays s o)).map (fun i => s.dates.getD i [])

def tmax_strs (s : Series) (o : Opts) : List PyStr :=
  (List.range (nDays s o)).map (fun i => s.tmax.getD i [] ++ o.tempSym)

def tmin_strs (s : Series) (o : Opts) : List PyStr :=
  (List.range (nDays s o)).map (fun i => s.tmin.getD i [] ++ o.tempSym)

def precip_strs (s : Series) (o : Opts) : List PyStr :=
  (List.range (nDays s o)).map (fun i => s.precip.getD i [] ++ "mm".data)

def sunrise_strs (s : Series) (o : Opts) : List PyStr :=
  (List.range (nDays s o)).map (fun i =>
    let x := s.sunrises.getD i []
    if x.isEmpty then [] else lastFive x)

def sunset_strs (s : Series) (o : Opts) : List PyStr :=
  (List.range (nDays s o)).map (fun i =>
    let x := s.sunsets.getD i []
    if x.isEmpty then [] else lastFive x)

/-- Fixed minimum pads (src/weather.py lines 497-501 and 548). -/
def pad_weather : Nat := 22
def pad_date : Nat := 12
def pad_temp : Nat := 8
def pad_precip : Nat := 8
def pad_sun : Nat := 8

/-- Python `max` over a (never empty here) list of naturals. -/
def maxList (l : List Nat) : Nat := l.foldr Nat.max 0

/-- Column widths (src/weather.py lines 548-555), mirroring the order of
each list literal exactly.  The icon column is a constant. -/
def max_icon_width : Nat := 6

def max_desc_width (s : Series) (o : Opts) : Nat :=
  maxList ((weather_descs s o).map display_width ++
    [display_width "Weather".data, pad_weather])

def max_date_width (s : Series) (o : Opts) : Nat :=
  maxList ((date_strs s o).map display_width ++
    [pad_date, display_width "Date".data])

def max_tmax_width (s : Series) (o : Opts) : Nat :=
  maxList ((tmax_strs s o).map display_width ++
    [pad_temp, display_width "High".data])

def max_tmin_width (s : Series) (o : Opts) : Nat :=
  maxList ((tmin_strs s o).map display_width ++
    [pad_temp, display_width "Low".data])

def max_precip_width (s : Series) (o : Opts) : Nat :=
  maxList ((precip_strs s o).map display_width ++
    [pad_precip, display_width "Precip".data])

def max_sunrise_width (s : Series) (o : Opts) : Nat :=
  maxList ((sunrise_strs s o).map display_width ++
    [pad_sun, display_width "Sunrise".data])

def max_sunset_width (s : Series) (o : Opts) : Nat :=
  maxList ((sunset_strs s o).map display_width ++
    [pad_sun, display_width "Sunset".data])

def spacesStr (n : Nat) : PyStr := List.replicate n ' '

/-- Data-cell padding (src/weather.py lines 577-600): append/prepend
`width - display_width(cell)` spaces when the cell is narrower than the
column; otherwise the cell is left untouched (never truncated). -/
def padCellRight (c : PyStr) (w : Nat) : PyStr :=
  c ++ spacesStr (w - display_width c)

def padCellLeft (c : PyStr) (w : Nat) : PyStr :=
  spacesStr (w - display_width c) ++ c

/-- Header-cell padding: a Python format spec `{label:<w}` / `{label:>w}`
pads by character count, not display width. -/
def fmtLeftLen (s : PyStr) (w : Nat) : PyStr := s ++ spacesStr (w - s.length)

def fmtRightLen (s : PyStr) (w : Nat) : PyStr := spacesStr (w - s.length) ++ s

/-- The header row (src/weather.py lines 557-564): with the icon column
unless `no_emoji`, labels left-aligned for text columns and
right-aligned for numeric columns, one space between columns. -/
def headerLine (s : Series) (o : Opts) : PyStr :=
  if o.noEmoji then
    fmtLeftLen "Date".data (max_date_width s o) ++ ' ' ::
    (fmtLeftLen "Weather".data (max_desc_width s o) ++ ' ' ::
    (fmtRightLen "High".data (max_tmax_width s o) ++ ' ' ::
    (fmtRightLen "Low".data (max_tmin_width s o) ++ ' ' ::
    (fmtRightLen "Precip".data (max_precip_width s o) ++ ' ' ::
    (fmtRightLen "Sunrise".data (max_sunrise_width s o) ++ ' ' ::
    fmtRightLen "Sunset".data (max_sunset_width s o))))))
  else
    fmtLeftLen "Date".data (max_date_width s o) ++ ' ' ::
    (fmtLeftLen "Wx".data max_icon_width ++ ' ' ::
    (fmtLeftLen "Weather".data (max_desc_width s o) ++ ' ' ::
    (fmtRightLen "High".data (max_tmax_width s o) ++ ' ' ::
    (fmtRightLen "Low".data (max_tmin_width s o) ++ ' ' ::
    (fmtRightLen "Precip".data (max_precip_width s o) ++ ' ' ::
    (fmtRightLen "Sunrise".data (max_sunrise_width s o) ++ ' ' ::
    fmtRightLen "Sunset".data (max_sunset_width s o)))))))

/-- The separator rule (src/weather.py lines 560-566): dashes, as many
as the sum of the column widths plus the inter-column spacing (6 without
the icon column, 7 with it). -/
def sepLine (s : Series) (o : Opts) : PyStr :=
  if o.noEmoji then
    List.replicate
      (max_date_width s o + max_desc_width s o + max_tmax_width s o +
        max_tmin_width s o + max_precip_width s o + max_sunrise_width s o +
        max_sunset_width s o + 6) '-'
  else
    List.replicate
      (max_date_width s o + max_icon_width + max_desc_width s o +
        max_tmax_width s o + max_tmin_width s o + max_precip_width s o +
        max_sunrise_width s o + max_sunset_width s o + 7) '-'

/-- One data row (src/weather.py lines 568-604): every cell padded on
the side opposite its alignment by display width, cells joined by single
spaces, the icon column omitted under `no_emoji`. -/
def rowLine (s : Series) (o : Opts) (i : Nat) : PyStr :=
  let ds := padCellRight ((date_strs s o).getD i []) (max_date_width s o)
  let icon := padCellRight ((weather_icons s o).getD i []) max_icon_width
  let desc := padCellRight ((weather_descs s o).getD i []) (max_desc_width s o)
  let tmaxs := padCellLeft ((tmax_strs s o).getD i []) (max_tmax_width s o)
  let tmins := padCellLeft ((tmin_strs s o).getD i []) (max_tmin_width s o)
  let precs := padCellLeft ((precip_strs s o).getD i []) (max_precip_width s o)
  let srs := padCellLeft ((sunrise_strs s o).getD i []) (max_sunrise_width s o)
  let sss := padCellLeft ((sunset_strs s o).getD i []) (max_sunset_width s o)
  if o.noEmoji then
    ds ++ ' ' :: (desc ++ ' ' :: (tmaxs ++ ' ' :: (tmins ++ ' ' ::
      (precs ++ ' ' :: (srs ++ ' ' :: sss)))))
  else
    ds ++ ' ' :: (icon ++ ' ' :: (desc ++ ' ' :: (tmaxs ++ ' ' :: (tmins ++ ' ' ::
      (precs ++ ' ' :: (srs ++ ' ' :: sss))))))

/-- The rendered data rows, one per forecast day. -/
def dataRows (s : Series) (o : Opts) : List PyStr :=
  (List.range (nDays s o)).map (rowLine s o)

/-! ### Dictionary lemmas -/

theorem dget_cons {α : Type} (kv : PyStr × α) (rest : PyDict α) (k : PyStr) :
    dget (kv :: rest) k = if kv.1 = k then some kv.2 else dget rest k := by
  cases kv
  rfl

theorem mem_dictKeys_cons_of_eq {α : Type} {kv : PyStr × α} {rest : PyDict α}
    {k : PyStr} (h : kv.1 = k) : k ∈ dictKeys (kv :: rest) :=
  List.mem_cons.mpr (Or.inl h.symm)

theorem mem_dictKeys_cons_of_mem {α : Type} {kv : PyStr × α} {rest : PyDict α}
    {k : PyStr} (h : k ∈ dictKeys rest) : k ∈ dictKeys (kv :: rest) :=
  List.mem_cons.mpr (Or.inr h)

theorem dget_replace_self {α : Type} (m : PyDict α) (k : PyStr) (v : α)
    (h : k ∈ dictKeys m) :
    dget (m.map (fun kv => if kv.1 = k then (k, v) else kv)) k = some v := by
  induction m with
  | nil => simp [dictKeys] at h
  | cons kv rest ih =>
    by_cases hk : kv.1 = k
    · simp only [List.map_cons, if_pos hk, dget_cons, if_pos rfl, if_true]
    · have hr : k ∈ dictKeys rest := by
        rcases List.mem_cons.mp h with h1 | h1
        · exact absurd h1.symm hk
        · exact h1
      simp only [List.map_cons, if_neg hk, dget_cons, if_neg hk, ih hr]

theorem dget_replace_ne {α : Type} (m : PyDict α) (k k2 : PyStr) (v : α)
    (h : k ≠ k2) :
    dget (m.map (fun kv => if kv.1 = k then (k, v) else kv)) k2 = dget m k2 := by
  induction m with
  | nil => rfl
  | cons kv rest ih =>
    by_cases hk : kv.1 = k
    · have hne : kv.1 ≠ k2 := by rw [hk]; exact h
      simp only [List.map_cons, if_pos hk, dget_cons, if_neg h, if_neg hne, ih]
    · by_cases hk2 : kv.1 = k2
      · simp only [List.map_cons, if_neg hk, dget_cons, if_pos hk2, ih]
      · simp only [List.map_cons, if_neg hk, dget_cons, if_neg hk2, ih]

theorem dget_append_single_self {α : Type} (m : PyDict α) (k : PyStr) (v : α)
    (h : k ∉ dictKeys m) : dget (m ++ [(k, v)]) k = some v := by
  induction m with
  | nil => simp only [List.nil_append, dget_cons, if_pos rfl, if_true]
  | cons kv rest ih =>
    have hk : kv.1 ≠ k := fun he => h (mem_dictKeys_cons_of_eq he)
    have hr : k ∉ dictKeys rest := fun he => h (mem_dictKeys_cons_of_mem he)
    simp only [List.cons_append, dget_cons, if_neg hk, ih hr]

theorem dget_append_single_ne {α : Type} (m : PyDict α) (k k2 : PyStr) (v : α)
    (h : k ≠ k2) : dget (m ++ [(k, v)]) k2 = dget m k2 := by
  induction m with
  | nil => simp only [List.nil_append, dget_cons, if_neg h]
  | cons kv rest ih =>
    simp only [List.cons_append, dget_cons, ih]

theorem dget_dset_self {α : Type} (m : PyDict α) (k : PyStr) (v : α) :
    dget (dset m k v) k = some v := by
  unfold dset
  split_ifs with h
  · exact dget_replace_self m k v h
  · exact dget_append_single_self m k v h

theorem dget_dset_ne {α : Type} (m : PyDict α) (k k2 : PyStr) (v : α)
    (h : k ≠ k2) : dget (dset m k v) k2 = dget m k2 := by
  unfold dset
  split_ifs with hm
  · exact dget_replace_ne m k k2 v h
  · exact dget_append_single_ne m k k2 v h

theorem dictKeys_dset {α : Type} (m : PyDict α) (k : PyStr) (v : α) :
    dictKeys (dset m k v) =
      if k ∈ dictKeys m then dictKeys m else dictKeys m ++ [k] := by
  unfold dset
  split_ifs with h
  · simp only [dictKeys, List.map_map]
    refine List.map_congr_left (fun kv _ => ?_)
    by_cases hk : kv.1 = k <;> simp [hk]
  · simp [dictKeys]

theorem nodup_dictKeys_dset {α : Type} (m : PyDict α) (k : PyStr) (v : α)
    (h : (dictKeys m).Nodup) : (dictKeys (dset m k v)).Nodup := by
  rw [dictKeys_dset]
  split_ifs with hm
  · exact h
  · simp [List.nodup_append, h, hm]

/-! ### The build loop: validity, skipping and registration -/

/-- A valid source row: both coordinates parse as floats and the
stripped name is non-empty (src/weather.py lines 781-787).  Note that
non-finite parses (`inf`, `nan`) count as valid here, exactly as in the
source. -/
def validRow (row : Row) : Bool :=
  (pyParseFloat row.latitude_deg).isSome &&
  (pyParseFloat row.longitude_deg).isSome &&
  !(pyStrip row.name).isEmpty

/-- Claim-side predicate: the coordinate string parses as a finite
number (the condition C7 asserts the build requires). -/
def parsesFinite (s : PyStr) : Bool :=
  match pyParseFloat s with
  | some (.finite _ _) => true
  | _ => false

/-- The record a valid row contributes to the index. -/
def builtRecord (row : Row) : AirportRecord :=
  recordOf row ((pyParseFloat row.latitude_deg).getD (.finite 0 0))
    ((pyParseFloat row.longitude_deg).getD (.finite 0 0))
    (match parseElev row.elevation_ft with | .ok e => e | .error _ => none)

theorem processRow_invalid (m : PyDict AirportRecord) (row : Row)
    (h : validRow row = false) : processRow m row = .ok m := by
  unfold processRow
  unfold validRow at h
  cases hlat : pyParseFloat row.latitude_deg with
  | none => rfl
  | some lat =>
    cases hlon : pyParseFloat row.longitude_deg with
    | none => rfl
    | some lon =>
      have hname : (pyStrip row.name).isEmpty = true := by
        simp [hlat, hlon] at h
        simp [h]
      simp [hname]

theorem foldl_buildStep_error (rows : List Row) (e : Unit) :
    rows.foldl buildStep (.error e) = .error e := by
  induction rows with
  | nil => rfl
  | cons r rest ih => simpa [buildStep, Except.bind] using ih

theorem dget_registerRow_icao (m : PyDict AirportRecord) (row : Row)
    (r : AirportRecord) (hi : pyUpperStr row.icao_code ≠ []) :
    dget (registerRow m row r) (pyUpperStr row.icao_code) = some r := by
  unfold registerRow
  dsimp only
  set icao := pyUpperStr row.icao_code with hic
  set iata := pyUpperStr row.iata_code
  set localc := pyStrip row.local_code
  set gpsc := pyStrip row.gps_code
  have h1 : dget (if icao ≠ [] then dset m icao r else m) icao = some r := by
    rw [if_pos hi]
    exact dget_dset_self _ _ _
  set a1 := if icao ≠ [] then dset m icao r else m
  have h2 : dget (if iata ≠ [] ∧ iata ≠ icao then dset a1 iata r else a1) icao
      = some r := by
    split_ifs with hc
    · rw [dget_dset_ne _ _ _ _ hc.2, h1]
    · exact h1
  set a2 := if iata ≠ [] ∧ iata ≠ icao then dset a1 iata r else a1
  have h3 : dget (if localc ≠ [] ∧ localc ≠ icao ∧ localc ≠ iata then
      dset a2 localc r else a2) icao = some r := by
    split_ifs with hc
    · rw [dget_dset_ne _ _ _ _ hc.2.1, h2]
    · exact h2
  set a3 := if localc ≠ [] ∧ localc ≠ icao ∧ localc ≠ iata then dset a2 localc r else a2
  split_ifs with hc
  · rw [dget_dset_ne _ _ _ _ hc.2.1, h3]
  · exact h3

theorem processRow_valid (m : PyDict AirportRecord) (row : Row)
    (hv : validRow row = true)
    (helev : ¬ parseElev row.elevation_ft = .error ()) :
    processRow m row = .ok (registerRow m row (builtRecord row)) := by
  unfold validRow at hv
  cases hlat : pyParseFloat row.latitude_deg with
  | none => simp [hlat] at hv
  | some lat =>
    cases hlon : pyParseFloat row.longitude_deg with
    | none => simp [hlat, hlon] at hv
    | some lon =>
      have hname : ¬(pyStrip row.name).isEmpty = true := by
        simp [hlat, hlon] at hv
        simp [hv]
      unfold processRow
      rw [hlat, hlon]
      simp only [hname, if_false]
      cases he : parseElev row.elevation_ft with
      | error e => cases e; exact absurd he helev
      | ok elev =>
        have hrec : recordOf row lat lon elev = builtRecord row := by
          simp only [builtRecord, hlat, hlon, he, Option.getD_some]
        simp [hrec]

instance {e a : Type} [DecidableEq e] [DecidableEq a] : DecidableEq (Except e a) :=
  fun x y =>
    match x, y with
    | .error u, .error v =>
      if h : u = v then .isTrue (by rw [h]) else .isFalse (by simp [h])
    | .ok u, .ok v =>
      if h : u = v then .isTrue (by rw [h]) else .isFalse (by simp [h])
    | .error _, .ok _ => .isFalse (by simp)
    | .ok _, .error _ => .isFalse (by simp)

theorem processRow_elev_error (m : PyDict AirportRecord) (row : Row)
    (hv : validRow row = true)
    (he : parseElev row.elevation_ft = .error ()) :
    processRow m row = .error () := by
  unfold validRow at hv
  cases hlat : pyParseFloat row.latitude_deg with
  | none => simp [hlat] at hv
  | some lat =>
    cases hlon : pyParseFloat row.longitude_deg with
    | none => simp [hlat, hlon] at hv
    | some lon =>
      have hname : ¬(pyStrip row.name).isEmpty = true := by
        simp [hlat, hlon] at hv
        simp [hv]
      unfold processRow
      rw [hlat, hlon]
      simp [hname, he]

/-! ### Claim C1: duplicate codes across rows of one build pass -/

def rowFirst : Row :=
  { icao_code := "AAAA".data, iata_code := [], name := "First".data
    municipality := [], iso_country := [], iso_region := []
    local_code := [], gps_code := [], elevation_ft := []
    type := [], scheduled_service := []
    latitude_deg := "1".data, longitude_deg := "2".data }

def rowSecond : Row :=
  { rowFirst with
    name := "Second".data
    latitude_deg := "3".data
    longitude_deg := "4".data }

/-- C1 counterexample: two valid rows of one build pass share the code
"AAAA"; after the build, lookup of "AAAA" returns the record of the
LATER row, which differs from the earlier row's record — refuting
"a code already registered by an earlier row is left untouched / first
occurrence wins". -/
theorem C1_counterexample :
    (update_airports [rowFirst, rowSecond]).toOption.bind
        (fun m => lookupCode m "AAAA".data) = some (builtRecord rowSecond) ∧
    builtRecord rowSecond ≠ builtRecord rowFirst := by
  decide

/-- C1 amended: within one row the four codes are deduplicated, but
across rows the registration `airports[code] = record` is an
unconditional overwrite, so the LAST occurrence of a code wins: after
any build pass that ends with a valid row carrying a non-empty ICAO
code, lookup of that code returns that last row's record, whatever
earlier rows registered under it. -/
theorem C1_amended (rows : List Row) (row : Row) (m : PyDict AirportRecord)
    (hu : update_airports (rows ++ [row]) = .ok m)
    (hv : validRow row = true)
    (hi : pyUpperStr row.icao_code ≠ []) :
    lookupCode m row.icao_code = some (builtRecord row) := by
  rw [update_airports, List.foldl_append] at hu
  cases hprev : List.foldl buildStep (Except.ok []) rows with
  | error e =>
    rw [hprev] at hu
    cases e
    rw [show List.foldl buildStep (Except.error ()) [row] =
        buildStep (Except.error ()) row from rfl] at hu
    simp [buildStep, Except.bind] at hu
  | ok m0 =>
    rw [hprev] at hu
    have hpr : processRow m0 row = .ok m := by
      simpa [buildStep, Except.bind] using hu
    by_cases he : parseElev row.elevation_ft = .error ()
    · rw [processRow_elev_error m0 row hv he] at hpr
      exact absurd hpr (by simp)
    · rw [processRow_valid m0 row hv he] at hpr
      have hm : m = registerRow m0 row (builtRecord row) := by
        injection hpr with h
        exact h.symm
      rw [hm]
      exact dget_registerRow_icao m0 row (builtRecord row) hi

theorem C1_witness :
    lookupCode ((update_airports ([] ++ [rowSecond])).toOption.getD [])
        rowSecond.icao_code = some (builtRecord rowSecond) :=
  C1_amended [] rowSecond _ (by decide) (by decide) (by decide)

/-! ### Claim C7: which rows the build drops -/

/-- C7 amended, part 1: the build is unchanged when the invalid rows
(empty stripped name, or a coordinate that fails to parse at all) are
removed — equivalently, exactly the invalid rows are dropped, silently
and non-fatally, and a dropped row contributes no key.  (Contrary to the
claim, rows whose coordinates parse to non-finite values are NOT
dropped, and no count of dropped rows is kept anywhere in the source.) -/
theorem C7_amended (rows : List Row) :
    update_airports rows = update_airports (rows.filter validRow) := by
  have key : ∀ (l : List Row) (om : Except Unit (PyDict AirportRecord)),
      l.foldl buildStep om = (l.filter validRow).foldl buildStep om := by
    intro l
    induction l with
    | nil => intro om; rfl
    | cons r rest ih =>
      intro om
      by_cases hv : validRow r = true
      · rw [List.filter_cons_of_pos hv, List.foldl_cons, List.foldl_cons, ih]
      · have hstep : buildStep om r = om := by
          cases om with
          | error e => rfl
          | ok m =>
            simp [buildStep, Except.bind,
              processRow_invalid m r (Bool.not_eq_true _ ▸ hv)]
        rw [List.filter_cons_of_neg (by simpa using hv), List.foldl_cons, hstep, ih]
  exact key rows _

def rowInf : Row :=
  { rowFirst with
    icao_code := "XXXX".data
    name := "Xray".data
    latitude_deg := "inf".data
    longitude_deg := "0".data }

/-- C7 counterexample: a row whose latitude is `"inf"` does not parse as
a FINITE number, so the claim says it is dropped; but `float("inf")`
succeeds, the source keeps the row, and its ICAO key resolves after the
build. -/
theorem C7_counterexample :
    parsesFinite rowInf.latitude_deg = false ∧
    (update_airports [rowInf]).toOption.bind
        (fun m => lookupCode m "XXXX".data) ≠ none := by
  decide

/-! ### Claim C10: load-time defaults for missing coordinates -/

/-- C10: a dict-shaped persisted record with absent `lat` / `lon` fields
is not dropped by `load_airports`; the missing coordinates default to
`0.0`, and lookup of its (uppercased) code returns the record with
coordinates `(0.0, 0.0)`. -/
theorem C10_theorem (payload : PyDict PersistedEntry) (code : PyStr)
    (d : PersistedDict) (hlat : d.lat = none) (hlon : d.lon = none) :
    dget (load_airports (payload ++ [(code, PersistedEntry.dictE d)]))
        (pyUpperStr code) = some (loadDict d) ∧
    (loadDict d).lat = PyFloat.finite 0 0 ∧ (loadDict d).lon = PyFloat.finite 0 0 := by
  refine ⟨?_, by simp [loadDict, hlat], by simp [loadDict, hlon]⟩
  unfold load_airports
  rw [List.foldl_append]
  exact dget_dset_self _ _ _

def persistedNoCoords : PersistedDict :=
  { name := some "Nowhere Field".data, city := none, lat := none, lon := none
    icao_code := none, iata_code := none, iso_country := none, iso_region := none
    elevation_ft := none, type := none, scheduled_service := none
    local_code := none, gps_code := none, faa_lid := none }

theorem C10_witness :
    dget (load_airports ([] ++ [("nwr".data, PersistedEntry.dictE persistedNoCoords)]))
        (pyUpperStr "nwr".data) = some (loadDict persistedNoCoords) ∧
    (loadDict persistedNoCoords).lat = PyFloat.finite 0 0 ∧
    (loadDict persistedNoCoords).lon = PyFloat.finite 0 0 :=
  C10_theorem [] "nwr".data persistedNoCoords (by decide) (by decide)

/-! ### Claim C4: the weather-code classifier -/

/-- C4 counterexample: an infinite numeric weather code (Python's `json`
parses `Infinity` by default) makes `int(code)` raise `OverflowError`,
which the source's `except (TypeError, ValueError)` at weather.py
lines 296-299 does not catch — the classifier raises instead of
returning the unknown label the claim promises for "any other input". -/
theorem C4_counterexample :
    weather_code_to_emoji (.num .inf) true = .error () ∧
    classifySpec (.num .inf) true = "❓ Unknown".data := by
  decide

/-- C4 amended: on every input other than an infinite numeric code the
classifier returns normally and agrees with the spec's closed range
table — finite floats truncate, strings parse, and non-numeric input
(the string "abc", null) deterministically yields the unknown label;
but an infinite numeric code raises the uncaught `OverflowError`
instead of classifying. -/
theorem C4_amended :
    (∀ (wc : WCode) (b : Bool), wc ≠ .num .inf → wc ≠ .num .neginf →
      weather_code_to_emoji wc b = .ok (classifySpec wc b)) ∧
    weather_code_to_emoji (.num (.finite 0 0)) true = .ok "☀️ Clear".data ∧
    weather_code_to_emoji (.num (.finite 999 0)) true = .ok "❓ Unknown".data ∧
    weather_code_to_emoji (.str "abc".data) true = .ok "❓ Unknown".data ∧
    weather_code_to_emoji (.num .neginf) true = .error () := by
  refine ⟨?_, by decide, by decide, by decide, by decide⟩
  intro wc b h1 h2
  unfold weather_code_to_emoji classifySpec
  cases hp : pyToInt wc with
  | error e =>
    exfalso
    cases wc with
    | num v =>
      cases v with
      | finite m ex => simp [pyToInt] at hp
      | inf => exact h1 rfl
      | neginf => exact h2 rfl
      | nan => simp [pyToInt] at hp
    | str s => simp [pyToInt] at hp
    | null => simp [pyToInt] at hp
  | ok o =>
    cases o with
    | none => rfl
    | some c =>
      simp only [List.mem_cons, List.mem_singleton, List.not_mem_nil, or_false]

theorem C4_witness :
    weather_code_to_emoji (.str "61".data) true =
      .ok (classifySpec (.str "61".data) true) :=
  C4_amended.1 (.str "61".data) true (by decide) (by decide)

/-! ### Claim C6: the glyph splitter -/

/-- C6: on a space-free token containing a non-Symbol code point, the
split point is the index of the first such code point: the icon is the
all-Symbol prefix before it and the description starts with it; in
particular a token starting with a non-Symbol code point keeps an empty
icon, and the two spec examples hold. -/
theorem C6_theorem :
    (∀ (pre : PyStr) (c : Char) (post : PyStr),
      pre.all isSymbolCat = true → isSymbolCat c = false →
      glyphSplit (pre ++ c :: post) = (pre, c :: post)) ∧
    glyphSplit "⛅Partly".data = ("⛅".data, "Partly".data) ∧
    glyphSplit "Clear".data = ([], "Clear".data) := by
  refine ⟨?_, by decide, by decide⟩
  intro pre c post hpre hc
  have hidx : ∀ (pre2 : PyStr) (i : Nat), pre2.all isSymbolCat = true →
      glyphSplitIdxAux (pre2 ++ c :: post) i = some (i + pre2.length) := by
    intro pre2
    induction pre2 with
    | nil =>
      intro i _
      simp [glyphSplitIdxAux, hc]
    | cons x xs ih =>
      intro i hall
      simp only [List.all_cons, Bool.and_eq_true] at hall
      obtain ⟨hx, hxs⟩ := hall
      simp only [List.cons_append, glyphSplitIdxAux, hx, if_true, List.append_eq,
        ih (i + 1) hxs, List.length_cons, Option.some.injEq]
      omega
  unfold glyphSplit glyphSplitIdx
  rw [hidx pre 0 hpre]
  simp only [Option.getD_some, Nat.zero_add]
  rw [List.take_left, List.drop_left]

theorem C6_witness :
    glyphSplit ("⛅".data ++ 'P' :: "artly".data) = ("⛅".data, 'P' :: "artly".data) :=
  C6_theorem.1 "⛅".data 'P' "artly".data (by decide) (by decide)

/-! ### Claim C5: display width totality, fallback, and zero-width -/

/-- The column count of a fully classifiable string: the sum of its
per-code-point widths. -/
def sumWidths (s : PyStr) : Nat := (s.map (fun c => (wcwidthChar c).toNat)).sum

/-- Whether every code point of the string is classifiable (no control
characters), i.e. whether `wcswidth` does not report `-1`. -/
def classifiableStr (s : PyStr) : Bool := s.all (fun c => 0 ≤ wcwidthChar c)

theorem foldr_wcwidth_nonneg (s : PyStr) (h : ∀ c ∈ s, 0 ≤ wcwidthChar c) :
    (s.map wcwidthChar).foldr (· + ·) 0 = (sumWidths s : Int) := by
  induction s with
  | nil => rfl
  | cons c rest ih =>
    have hc := h c (List.mem_cons_self c rest)
    have hr := ih (fun x hx => h x (List.mem_cons_of_mem c hx))
    simp only [List.map_cons, List.foldr_cons, hr, sumWidths, List.sum_cons]
    push_cast
    rw [Int.toNat_of_nonneg hc]

/-- Characterisation of the source `display_width`: the sum of the
per-code-point widths on classifiable text, the character count
otherwise. -/
theorem display_width_spec (s : PyStr) :
    display_width s = if classifiableStr s then sumWidths s else s.length := by
  unfold display_width wcswidth
  by_cases h : s.any (fun c => wcwidthChar c < 0)
  · rw [if_pos h]
    have hcl : ¬ classifiableStr s = true := by
      unfold classifiableStr
      rw [List.all_eq_true]
      intro hf
      rcases List.any_eq_true.mp h with ⟨c, hcmem, hneg⟩
      have h1 := of_decide_eq_true (hf c hcmem)
      have h2 := of_decide_eq_true hneg
      omega
    simp [hcl]
  · rw [if_neg h]
    have hnn : ∀ c ∈ s, 0 ≤ wcwidthChar c := by
      intro c hcmem
      by_contra hlt
      exact h (List.any_eq_true.mpr ⟨c, hcmem, decide_eq_true (by omega)⟩)
    have hcl : classifiableStr s = true := by
      unfold classifiableStr
      rw [List.all_eq_true]
      exact fun c hcmem => decide_eq_true (hnn c hcmem)
    rw [foldr_wcwidth_nonneg s hnn, hcl, if_pos rfl]
    simp

/-- C5 amended: `display_width` is total and non-negative; on text whose
code points are all classifiable it is the sum of their widths (so
zero-width code points contribute 0 columns); but when the underlying
classification fails — the text contains a control/unmappable code
point — the result is exactly the character count of the whole string,
so such a character contributes one column via the fallback, not 0.
The spec's two examples hold. -/
theorem C5_amended :
    (∀ s : PyStr, display_width s =
      if classifiableStr s then sumWidths s else s.length) ∧
    display_width "☀️ Clear".data > display_width "Clear".data ∧
    display_width [] = 0 :=
  ⟨display_width_spec, by decide, by decide⟩

/-- C5 counterexample: the claim says an unmappable/control character
contributes width 0, which would give `"a" ++ ctrl` the same width as
`"a"`; but the source falls back to the character count, so the control
character contributes one column. -/
theorem C5_counterexample :
    display_width ['a', Char.ofNat 1] = 2 ∧ display_width ['a'] = 1 := by
  decide

/-! ### Claim C2: column widths -/

theorem le_maxList {x : Nat} {l : List Nat} (h : x ∈ l) : x ≤ maxList l := by
  induction l with
  | nil => simp at h
  | cons y ys ih =>
    rcases List.mem_cons.mp h with h1 | h1
    · simp [maxList, h1, Nat.le_max_left]
    · exact le_trans (ih h1) (Nat.le_max_right _ _)

theorem maxList_le {l : List Nat} {k : Nat} (h : ∀ x ∈ l, x ≤ k) :
    maxList l ≤ k := by
  induction l with
  | nil => simp [maxList]
  | cons y ys ih =>
    simp only [maxList, List.foldr_cons, Nat.max_le]
    exact ⟨h y (List.mem_cons_self y ys),
      ih (fun x hx => h x (List.mem_cons_of_mem y hx))⟩

theorem foldr_max_init (l : List Nat) (b : Nat) :
    List.foldr Nat.max b l = Nat.max (List.foldr Nat.max 0 l) b := by
  induction l with
  | nil => simp
  | cons x xs ih =>
    simp only [List.foldr_cons, ih, Nat.max_assoc]

theorem maxList_append (l1 l2 : List Nat) :
    maxList (l1 ++ l2) = max (maxList l1) (maxList l2) := by
  unfold maxList
  rw [List.foldr_append, foldr_max_init]

/-- The spec's column-width formula: the maximum of the fixed minimum
pad, the header label's display width, and the display width of every
data cell in the column. -/
def colWidthSpec (cells : List PyStr) (hdr : PyStr) (minPad : Nat) : Nat :=
  max minPad (max (display_width hdr) (maxList (cells.map display_width)))

/-- The eight labels the classifier can produce in each emoji mode. -/
def labelList : Bool → List PyStr
  | true => ["☀️ Clear".data, "⛅ Partly Cloudy".data, "🌫️ Fog".data,
             "🌦️ Drizzle".data, "🌧️ Rain".data, "❄️ Snow".data,
             "⛈️ Thunderstorm".data, "❓ Unknown".data]
  | false => ["Clear".data, "Partly Cloudy".data, "Fog".data, "Drizzle".data,
              "Rain".data, "Snow".data, "Thunderstorm".data, "Unknown".data]

set_option maxHeartbeats 1600000 in
theorem label_mem (wc : WCode) (b : Bool) :
    weatherLabel wc b ∈ labelList b := by
  unfold weatherLabel weather_code_to_emoji
  cases hp : pyToInt wc with
  | error e => cases b <;> simp [labelList]
  | ok o =>
    cases o with
    | none => cases b <;> simp [labelList]
    | some c =>
      cases b <;> dsimp only <;> simp only [labelList] <;>
        (repeat' split) <;> simp_all

set_option maxHeartbeats 1600000 in
/-- Facts about the icon/description cells of any day: the icon never
exceeds the icon column's fixed width, and both cells are classifiable
(contain no control characters). -/
theorem weatherCell_facts (noE : Bool) (wc : WCode) :
    display_width (weatherCell noE wc).1 ≤ 6 ∧
    classifiableStr (weatherCell noE wc).1 = true ∧
    classifiableStr (weatherCell noE wc).2 = true := by
  have h := label_mem wc (!noE)
  unfold weatherCell
  cases hb : (!noE) <;> rw [hb] at h <;>
    simp only [labelList, List.mem_cons, List.not_mem_nil, or_false] at h <;>
    rcases h with h | h | h | h | h | h | h | h <;> rw [h] <;> decide

/-- C2: every column's rendered width equals the spec's
`max(minimum pad, header width, cell widths)` formula — including the
icon column, whose fixed width 6 coincides with the formula because
every producible icon is at most 2 columns wide and the `Wx` header is
2 columns wide. -/
theorem C2_theorem (s : Series) (o : Opts) :
    max_date_width s o = colWidthSpec (date_strs s o) "Date".data pad_date ∧
    max_desc_width s o = colWidthSpec (weather_descs s o) "Weather".data pad_weather ∧
    max_tmax_width s o = colWidthSpec (tmax_strs s o) "High".data pad_temp ∧
    max_tmin_width s o = colWidthSpec (tmin_strs s o) "Low".data pad_temp ∧
    max_precip_width s o = colWidthSpec (precip_strs s o) "Precip".data pad_precip ∧
    max_sunrise_width s o = colWidthSpec (sunrise_strs s o) "Sunrise".data pad_sun ∧
    max_sunset_width s o = colWidthSpec (sunset_strs s o) "Sunset".data pad_sun ∧
    max_icon_width =
      colWidthSpec (weather_icons s { o with noEmoji := false }) "Wx".data 6 := by
  refine ⟨?_, ?_, ?_, ?_, ?_, ?_, ?_, ?_⟩
  · unfold max_date_width colWidthSpec
    rw [maxList_append]
    simp only [maxList, List.foldr_cons, List.foldr_nil, Nat.max_zero]
    simp [Nat.max_comm, Nat.max_left_comm, Nat.max_assoc]
  · unfold max_desc_width colWidthSpec
    rw [maxList_append]
    simp only [maxList, List.foldr_cons, List.foldr_nil, Nat.max_zero]
    simp [Nat.max_comm, Nat.max_left_comm, Nat.max_assoc]
  · unfold max_tmax_width colWidthSpec
    rw [maxList_append]
    simp only [maxList, List.foldr_cons, List.foldr_nil, Nat.max_zero]
    simp [Nat.max_comm, Nat.max_left_comm, Nat.max_assoc]
  · unfold max_tmin_width colWidthSpec
    rw [maxList_append]
    simp only [maxList, List.foldr_cons, List.foldr_nil, Nat.max_zero]
    simp [Nat.max_comm, Nat.max_left_comm, Nat.max_assoc]
  · unfold max_precip_width colWidthSpec
    rw [maxList_append]
    simp only [maxList, List.foldr_cons, List.foldr_nil, Nat.max_zero]
    simp [Nat.max_comm, Nat.max_left_comm, Nat.max_assoc]
  · unfold max_sunrise_width colWidthSpec
    rw [maxList_append]
    simp only [maxList, List.foldr_cons, List.foldr_nil, Nat.max_zero]
    simp [Nat.max_comm, Nat.max_left_comm, Nat.max_assoc]
  · unfold max_sunset_width colWidthSpec
    rw [maxList_append]
    simp only [maxList, List.foldr_cons, List.foldr_nil, Nat.max_zero]
    simp [Nat.max_comm, Nat.max_left_comm, Nat.max_assoc]
  · unfold colWidthSpec max_icon_width
    have hM : maxList ((weather_icons s { o with noEmoji := false }).map
        display_width) ≤ 6 := by
      apply maxList_le
      intro x hx
      rcases List.mem_map.mp hx with ⟨icon, hmem, rfl⟩
      rcases List.mem_map.mp hmem with ⟨i, _, rfl⟩
      exact (weatherCell_facts false _).1
    have hw : display_width "Wx".data = 2 := by decide
    omega

/-! ### Claim C3: the three-day scenario with codes 0, 61, 999 -/

def scenarioSeries : Series :=
  { dates := ["2025-01-01".data, "2025-01-02".data, "2025-01-03".data]
    tmax := ["21.5".data, "18.0".data, "15.2".data]
    tmin := ["10.1".data, "8.4".data, "7.0".data]
    precip := ["0.0".data, "3.2".data, "1.1".data]
    sunrises := ["2025-01-01T06:30".data, "2025-01-02T06:31".data,
      "2025-01-03T06:32".data]
    sunsets := ["2025-01-01T17:45".data, "2025-01-02T17:46".data,
      "2025-01-03T17:47".data]
    wcodes := [.num (.finite 0 0), .num (.finite 61 0), .num (.finite 999 0)] }

def scenarioOpts : Opts :=
  { days := 3, noEmoji := false, tempSym := "°C".data }

set_option maxHeartbeats 1600000 in
/-- C3 counterexample: in the spec's scenario (three days, codes
`[0, 61, 999]`, icons shown), the icon cell of day 2 — the unknown code
999 — is NOT empty: the classifier maps unknown codes to the
`❓ Unknown` label, so the cell is `"❓"`. -/
theorem C3_counterexample :
    (weather_icons scenarioSeries scenarioOpts).getD 2 [] = "❓".data ∧
    "❓".data ≠ ([] : PyStr) := by
  decide

set_option maxHeartbeats 1600000 in
/-- C3 amended: the scenario renders exactly three data rows, the icon
cells of days 0 and 1 are non-empty, the icon cell of day 2 is the
(non-empty) unknown marker `"❓"`, and every column's width is at least
its fixed minimum. -/
theorem C3_amended :
    (dataRows scenarioSeries scenarioOpts).length = 3 ∧
    (weather_icons scenarioSeries scenarioOpts).getD 0 [] ≠ [] ∧
    (weather_icons scenarioSeries scenarioOpts).getD 1 [] ≠ [] ∧
    (weather_icons scenarioSeries scenarioOpts).getD 2 [] = "❓".data ∧
    pad_date ≤ max_date_width scenarioSeries scenarioOpts ∧
    6 ≤ max_icon_width ∧
    pad_weather ≤ max_desc_width scenarioSeries scenarioOpts ∧
    pad_temp ≤ max_tmax_width scenarioSeries scenarioOpts ∧
    pad_temp ≤ max_tmin_width scenarioSeries scenarioOpts ∧
    pad_precip ≤ max_precip_width scenarioSeries scenarioOpts ∧
    pad_sun ≤ max_sunrise_width scenarioSeries scenarioOpts ∧
    pad_sun ≤ max_sunset_width scenarioSeries scenarioOpts := by
  decide

/-! ### Claim C9: alignment of rendered rows -/

theorem classifiableStr_append (s t : PyStr) :
    classifiableStr (s ++ t) = (classifiableStr s && classifiableStr t) := by
  simp [classifiableStr, List.all_append]

theorem sumWidths_append (s t : PyStr) :
    sumWidths (s ++ t) = sumWidths s + sumWidths t := by
  simp [sumWidths]

theorem display_width_classifiable {s : PyStr} (h : classifiableStr s = true) :
    display_width s = sumWidths s := by
  rw [display_width_spec, if_pos h]

theorem classifiableStr_spaces (n : Nat) : classifiableStr (spacesStr n) = true := by
  unfold classifiableStr spacesStr
  rw [List.all_eq_true]
  intro c hc
  rw [List.eq_of_mem_replicate hc]
  decide

theorem sumWidths_spaces (n : Nat) : sumWidths (spacesStr n) = n := by
  unfold sumWidths spacesStr
  rw [List.map_replicate, show (wcwidthChar ' ').toNat = 1 from by decide,
    List.sum_replicate, smul_eq_mul, Nat.mul_one]

theorem dw_spaces (n : Nat) : display_width (spacesStr n) = n := by
  rw [display_width_classifiable (classifiableStr_spaces n), sumWidths_spaces]

theorem sumWidths_cons_space (b : PyStr) :
    sumWidths (' ' :: b) = 1 + sumWidths b := by
  simp only [sumWidths, List.map_cons, List.sum_cons,
    show (wcwidthChar ' ').toNat = 1 from by decide]

theorem classifiableStr_cons_space {b : PyStr} (hb : classifiableStr b = true) :
    classifiableStr (' ' :: b) = true := by
  unfold classifiableStr at hb ⊢
  rw [List.all_cons, hb]
  decide

/-- Display width of two classifiable pieces joined by one space. -/
theorem dw_glue {a b : PyStr} (ha : classifiableStr a = true)
    (hb : classifiableStr b = true) :
    display_width (a ++ ' ' :: b) = display_width a + 1 + display_width b ∧
    classifiableStr (a ++ ' ' :: b) = true := by
  have hsp := classifiableStr_cons_space hb
  have hall : classifiableStr (a ++ ' ' :: b) = true := by
    rw [classifiableStr_append, ha, hsp]
    rfl
  refine ⟨?_, hall⟩
  rw [display_width_classifiable hall, sumWidths_append, sumWidths_cons_space,
    display_width_classifiable ha, display_width_classifiable hb]
  omega

theorem padCellRight_facts {c : PyStr} {w : Nat} (hc : classifiableStr c = true)
    (hw : display_width c ≤ w) :
    display_width (padCellRight c w) = w ∧
    classifiableStr (padCellRight c w) = true := by
  have hall : classifiableStr (padCellRight c w) = true := by
    unfold padCellRight
    rw [classifiableStr_append, hc, classifiableStr_spaces]
    rfl
  refine ⟨?_, hall⟩
  unfold padCellRight at hall ⊢
  rw [display_width_classifiable hall, sumWidths_append, sumWidths_spaces,
    ← display_width_classifiable hc]
  omega

theorem padCellLeft_facts {c : PyStr} {w : Nat} (hc : classifiableStr c = true)
    (hw : display_width c ≤ w) :
    display_width (padCellLeft c w) = w ∧
    classifiableStr (padCellLeft c w) = true := by
  have hall : classifiableStr (padCellLeft c w) = true := by
    unfold padCellLeft
    rw [classifiableStr_append, hc, classifiableStr_spaces]
    rfl
  refine ⟨?_, hall⟩
  unfold padCellLeft at hall ⊢
  rw [display_width_classifiable hall, sumWidths_append, sumWidths_spaces,
    ← display_width_classifiable hc]
  omega

theorem fmtLeftLen_facts {lbl : PyStr} {w : Nat} (hc : classifiableStr lbl = true)
    (hlen : sumWidths lbl = lbl.length) (hw : lbl.length ≤ w) :
    display_width (fmtLeftLen lbl w) = w ∧
    classifiableStr (fmtLeftLen lbl w) = true := by
  have hall : classifiableStr (fmtLeftLen lbl w) = true := by
    unfold fmtLeftLen
    rw [classifiableStr_append, hc, classifiableStr_spaces]
    rfl
  refine ⟨?_, hall⟩
  unfold fmtLeftLen at hall ⊢
  rw [display_width_classifiable hall, sumWidths_append, sumWidths_spaces, hlen]
  omega

theorem fmtRightLen_facts {lbl : PyStr} {w : Nat} (hc : classifiableStr lbl = true)
    (hlen : sumWidths lbl = lbl.length) (hw : lbl.length ≤ w) :
    display_width (fmtRightLen lbl w) = w ∧
    classifiableStr (fmtRightLen lbl w) = true := by
  have hall : classifiableStr (fmtRightLen lbl w) = true := by
    unfold fmtRightLen
    rw [classifiableStr_append, classifiableStr_spaces, hc]
    rfl
  refine ⟨?_, hall⟩
  unfold fmtRightLen at hall ⊢
  rw [display_width_classifiable hall, sumWidths_append, sumWidths_spaces, hlen]
  omega

theorem classifiableStr_drop (s : PyStr) (k : Nat)
    (h : classifiableStr s = true) : classifiableStr (s.drop k) = true := by
  unfold classifiableStr at h ⊢
  rw [List.all_eq_true] at h ⊢
  exact fun c hc => h c (List.mem_of_mem_drop hc)

theorem classifiable_getD {l : List PyStr} (h : l.all classifiableStr = true)
    (i : Nat) : classifiableStr (l.getD i []) = true := by
  by_cases hi : i < l.length
  · rw [List.getD_eq_getElem?_getD, List.getElem?_eq_getElem hi]
    exact List.all_eq_true.mp h _ (List.getElem_mem hi)
  · rw [List.getD_eq_getElem?_getD, List.getElem?_eq_none (by omega)]
    rfl

theorem cell_le_col (cells : List PyStr) (tail : List Nat) {i : Nat}
    (h : i < cells.length) :
    display_width (cells.getD i []) ≤ maxList (cells.map display_width ++ tail) := by
  apply le_maxList
  apply List.mem_append_left
  apply List.mem_map.mpr
  refine ⟨cells.getD i [], ?_, rfl⟩
  rw [List.getD_eq_getElem?_getD, List.getElem?_eq_getElem h]
  exact List.getElem_mem h

/-- The hypothesis of the alignment theorem: every provider-supplied
string in the series (and the unit suffix) is free of control
characters — the "any mix of ASCII and emoji cells" of the claim. -/
def classifiableSeries (s : Series) (o : Opts) : Bool :=
  s.dates.all classifiableStr && s.tmax.all classifiableStr &&
  s.tmin.all classifiableStr && s.precip.all classifiableStr &&
  s.sunrises.all classifiableStr && s.sunsets.all classifiableStr &&
  classifiableStr o.tempSym

theorem date_strs_all (s : Series) (o : Opts)
    (h : s.dates.all classifiableStr = true) :
    (date_strs s o).all classifiableStr = true := by
  rw [List.all_eq_true]
  intro x hx
  rcases List.mem_map.mp hx with ⟨i, _, rfl⟩
  exact classifiable_getD h i

theorem tmax_strs_all (s : Series) (o : Opts)
    (h : s.tmax.all classifiableStr = true)
    (ht : classifiableStr o.tempSym = true) :
    (tmax_strs s o).all classifiableStr = true := by
  rw [List.all_eq_true]
  intro x hx
  rcases List.mem_map.mp hx with ⟨i, _, rfl⟩
  rw [classifiableStr_append, classifiable_getD h i, ht]
  rfl

theorem tmin_strs_all (s : Series) (o : Opts)
    (h : s.tmin.all classifiableStr = true)
    (ht : classifiableStr o.tempSym = true) :
    (tmin_strs s o).all classifiableStr = true := by
  rw [List.all_eq_true]
  intro x hx
  rcases List.mem_map.mp hx with ⟨i, _, rfl⟩
  rw [classifiableStr_append, classifiable_getD h i, ht]
  rfl

theorem precip_strs_all (s : Series) (o : Opts)
    (h : s.precip.all classifiableStr = true) :
    (precip_strs s o).all classifiableStr = true := by
  rw [List.all_eq_true]
  intro x hx
  rcases List.mem_map.mp hx with ⟨i, _, rfl⟩
  rw [classifiableStr_append, classifiable_getD h i,
    show classifiableStr "mm".data = true from by decide]
  rfl

theorem sunrise_strs_all (s : Series) (o : Opts)
    (h : s.sunrises.all classifiableStr = true) :
    (sunrise_strs s o).all classifiableStr = true := by
  rw [List.all_eq_true]
  intro x hx
  rcases List.mem_map.mp hx with ⟨i, _, rfl⟩
  dsimp only
  split_ifs
  · rfl
  · exact classifiableStr_drop _ _ (classifiable_getD h i)

theorem sunset_strs_all (s : Series) (o : Opts)
    (h : s.sunsets.all classifiableStr = true) :
    (sunset_strs s o).all classifiableStr = true := by
  rw [List.all_eq_true]
  intro x hx
  rcases List.mem_map.mp hx with ⟨i, _, rfl⟩
  dsimp only
  split_ifs
  · rfl
  · exact classifiableStr_drop _ _ (classifiable_getD h i)

theorem weather_icons_all (s : Series) (o : Opts) :
    (weather_icons s o).all classifiableStr = true := by
  rw [List.all_eq_true]
  intro x hx
  rcases List.mem_map.mp hx with ⟨i, _, rfl⟩
  exact (weatherCell_facts o.noEmoji _).2.1

theorem weather_descs_all (s : Series) (o : Opts) :
    (weather_descs s o).all classifiableStr = true := by
  rw [List.all_eq_true]
  intro x hx
  rcases List.mem_map.mp hx with ⟨i, _, rfl⟩
  exact (weatherCell_facts o.noEmoji _).2.2

theorem icon_getD_le (s : Series) (o : Opts) (i : Nat) :
    display_width ((weather_icons s o).getD i []) ≤ 6 := by
  by_cases hi : i < (weather_icons s o).length
  · rw [List.getD_eq_getElem?_getD, List.getElem?_eq_getElem hi]
    have hm := List.getElem_mem hi
    rcases List.mem_map.mp hm with ⟨j, _, he⟩
    rw [← he]
    exact (weatherCell_facts o.noEmoji _).1
  · rw [List.getD_eq_getElem?_getD, List.getElem?_eq_none (by omega)]
    decide

theorem date_strs_length (s : Series) (o : Opts) :
    (date_strs s o).length = nDays s o := by
  simp [date_strs]

theorem tmax_strs_length (s : Series) (o : Opts) :
    (tmax_strs s o).length = nDays s o := by
  simp [tmax_strs]

theorem tmin_strs_length (s : Series) (o : Opts) :
    (tmin_strs s o).length = nDays s o := by
  simp [tmin_strs]

theorem precip_strs_length (s : Series) (o : Opts) :
    (precip_strs s o).length = nDays s o := by
  simp [precip_strs]

theorem sunrise_strs_length (s : Series) (o : Opts) :
    (sunrise_strs s o).length = nDays s o := by
  simp [sunrise_strs]

theorem sunset_strs_length (s : Series) (o : Opts) :
    (sunset_strs s o).length = nDays s o := by
  simp [sunset_strs]

theorem weather_icons_length (s : Series) (o : Opts) :
    (weather_icons s o).length = nDays s o := by
  simp [weather_icons]

theorem weather_descs_length (s : Series) (o : Opts) :
    (weather_descs s o).length = nDays s o := by
  simp [weather_descs]

set_option maxHeartbeats 1600000 in
/-- C9 amended: for any series whose cells are a mix of classifiable
(ASCII/emoji) text, every data row has the same total DISPLAY width as
the header row, and the separator rule has that same length; each cell
is padded (never truncated) by `columnWidth - DisplayWidth(cell)`
spaces on the side opposite its alignment, which is what the equality
rests on.  (Equality of raw character counts, as the claim literally
states, fails for emoji cells — see the counterexample.) -/
theorem C9_amended (s : Series) (o : Opts) (h : classifiableSeries s o = true)
    (i : Nat) (hi : i < nDays s o) :
    display_width (rowLine s o i) = display_width (headerLine s o) ∧
    (sepLine s o).length = display_width (headerLine s o) := by
  simp only [classifiableSeries, Bool.and_eq_true] at h
  obtain ⟨⟨⟨⟨⟨⟨hdts, htmx⟩, htmn⟩, hprc⟩, hsr⟩, hss⟩, htmp⟩ := h
  have hd := padCellRight_facts (w := max_date_width s o)
    (classifiable_getD (date_strs_all s o hdts) i)
    (by unfold max_date_width
        exact cell_le_col _ _ (by rw [date_strs_length]; exact hi))
  have hic := padCellRight_facts (w := max_icon_width)
    (classifiable_getD (weather_icons_all s o) i)
    (icon_getD_le s o i)
  have hde := padCellRight_facts (w := max_desc_width s o)
    (classifiable_getD (weather_descs_all s o) i)
    (by unfold max_desc_width
        exact cell_le_col _ _ (by rw [weather_descs_length]; exact hi))
  have htx := padCellLeft_facts (w := max_tmax_width s o)
    (classifiable_getD (tmax_strs_all s o htmx htmp) i)
    (by unfold max_tmax_width
        exact cell_le_col _ _ (by rw [tmax_strs_length]; exact hi))
  have htn := padCellLeft_facts (w := max_tmin_width s o)
    (classifiable_getD (tmin_strs_all s o htmn htmp) i)
    (by unfold max_tmin_width
        exact cell_le_col _ _ (by rw [tmin_strs_length]; exact hi))
  have hpc := padCellLeft_facts (w := max_precip_width s o)
    (classifiable_getD (precip_strs_all s o hprc) i)
    (by unfold max_precip_width
        exact cell_le_col _ _ (by rw [precip_strs_length]; exact hi))
  have hs1 := padCellLeft_facts (w := max_sunrise_width s o)
    (classifiable_getD (sunrise_strs_all s o hsr) i)
    (by unfold max_sunrise_width
        exact cell_le_col _ _ (by rw [sunrise_strs_length]; exact hi))
  have hs2 := padCellLeft_facts (w := max_sunset_width s o)
    (classifiable_getD (sunset_strs_all s o hss) i)
    (by unfold max_sunset_width
        exact cell_le_col _ _ (by rw [sunset_strs_length]; exact hi))
  have hD := fmtLeftLen_facts (w := max_date_width s o)
    (show classifiableStr "Date".data = true from by decide)
    (show sumWidths "Date".data = ("Date".data).length from by decide)
    (by have hm := le_maxList (x := display_width "Date".data)
          (l := (date_strs s o).map display_width ++
            [pad_date, display_width "Date".data])
          (List.mem_append_right _ (by simp))
        unfold max_date_width
        have e1 : display_width "Date".data = 4 := by decide
        have e2 : ("Date".data).length = 4 := by decide
        omega)
  have hWx : display_width (fmtLeftLen "Wx".data max_icon_width) = max_icon_width ∧
      classifiableStr (fmtLeftLen "Wx".data max_icon_width) = true := by
    constructor <;> decide
  have hWe := fmtLeftLen_facts (w := max_desc_width s o)
    (show classifiableStr "Weather".data = true from by decide)
    (show sumWidths "Weather".data = ("Weather".data).length from by decide)
    (by have hm := le_maxList (x := display_width "Weather".data)
          (l := (weather_descs s o).map display_width ++
            [display_width "Weather".data, pad_weather])
          (List.mem_append_right _ (by simp))
        unfold max_desc_width
        have e1 : display_width "Weather".data = 7 := by decide
        have e2 : ("Weather".data).length = 7 := by decide
        omega)
  have hHi := fmtRightLen_facts (w := max_tmax_width s o)
    (show classifiableStr "High".data = true from by decide)
    (show sumWidths "High".data = ("High".data).length from by decide)
    (by have hm := le_maxList (x := display_width "High".data)
          (l := (tmax_strs s o).map display_width ++
            [pad_temp, display_width "High".data])
          (List.mem_append_right _ (by simp))
        unfold max_tmax_width
        have e1 : display_width "High".data = 4 := by decide
        have e2 : ("High".data).length = 4 := by decide
        omega)
  have hLo := fmtRightLen_facts (w := max_tmin_width s o)
    (show classifiableStr "Low".data = true from by decide)
    (show sumWidths "Low".data = ("Low".data).length from by decide)
    (by have hm := le_maxList (x := display_width "Low".data)
          (l := (tmin_strs s o).map display_width ++
            [pad_temp, display_width "Low".data])
          (List.mem_append_right _ (by simp))
        unfold max_tmin_width
        have e1 : display_width "Low".data = 3 := by decide
        have e2 : ("Low".data).length = 3 := by decide
        omega)
  have hPr := fmtRightLen_facts (w := max_precip_width s o)
    (show classifiableStr "Precip".data = true from by decide)
    (show sumWidths "Precip".data = ("Precip".data).length from by decide)
    (by have hm := le_maxList (x := display_width "Precip".data)
          (l := (precip_strs s o).map display_width ++
            [pad_precip, display_width "Precip".data])
          (List.mem_append_right _ (by simp))
        unfold max_precip_width
        have e1 : display_width "Precip".data = 6 := by decide
        have e2 : ("Precip".data).length = 6 := by decide
        omega)
  have hSr := fmtRightLen_facts (w := max_sunrise_width s o)
    (show classifiableStr "Sunrise".data = true from by decide)
    (show sumWidths "Sunrise".data = ("Sunrise".data).length from by decide)
    (by have hm := le_maxList (x := display_width "Sunrise".data)
          (l := (sunrise_strs s o).map display_width ++
            [pad_sun, display_width "Sunrise".data])
          (List.mem_append_right _ (by simp))
        unfold max_sunrise_width
        have e1 : display_width "Sunrise".data = 7 := by decide
        have e2 : ("Sunrise".data).length = 7 := by decide
        omega)
  have hSs := fmtRightLen_facts (w := max_sunset_width s o)
    (show classifiableStr "Sunset".data = true from by decide)
    (show sumWidths "Sunset".data = ("Sunset".data).length from by decide)
    (by have hm := le_maxList (x := display_width "Sunset".data)
          (l := (sunset_strs s o).map display_width ++
            [pad_sun, display_width "Sunset".data])
          (List.mem_append_right _ (by simp))
        unfold max_sunset_width
        have e1 : display_width "Sunset".data = 6 := by decide
        have e2 : ("Sunset".data).length = 6 := by decide
        omega)
  cases hno : o.noEmoji with
  | false =>
    have g7 := dw_glue hs1.2 hs2.2
    have g6 := dw_glue hpc.2 g7.2
    have g5 := dw_glue htn.2 g6.2
    have g4 := dw_glue htx.2 g5.2
    have g3 := dw_glue hde.2 g4.2
    have g2 := dw_glue hic.2 g3.2
    have g1 := dw_glue hd.2 g2.2
    have k7 := dw_glue hSr.2 hSs.2
    have k6 := dw_glue hPr.2 k7.2
    have k5 := dw_glue hLo.2 k6.2
    have k4 := dw_glue hHi.2 k5.2
    have k3 := dw_glue hWe.2 k4.2
    have k2 := dw_glue hWx.2 k3.2
    have k1 := dw_glue hD.2 k2.2
    have hhead : display_width (headerLine s o) =
        max_date_width s o + 1 + (max_icon_width + 1 + (max_desc_width s o + 1 +
          (max_tmax_width s o + 1 + (max_tmin_width s o + 1 +
          (max_precip_width s o + 1 + (max_sunrise_width s o + 1 +
          max_sunset_width s o)))))) := by
      unfold headerLine
      rw [hno]
      simp only [Bool.false_eq_true, if_false]
      rw [k1.1, k2.1, k3.1, k4.1, k5.1, k6.1, k7.1, hD.1, hWx.1, hWe.1, hHi.1,
        hLo.1, hPr.1, hSr.1, hSs.1]
    have hrow : display_width (rowLine s o i) =
        max_date_width s o + 1 + (max_icon_width + 1 + (max_desc_width s o + 1 +
          (max_tmax_width s o + 1 + (max_tmin_width s o + 1 +
          (max_precip_width s o + 1 + (max_sunrise_width s o + 1 +
          max_sunset_width s o)))))) := by
      unfold rowLine
      dsimp only
      rw [hno]
      simp only [Bool.false_eq_true, if_false]
      rw [g1.1, g2.1, g3.1, g4.1, g5.1, g6.1, g7.1, hd.1, hic.1, hde.1, htx.1,
        htn.1, hpc.1, hs1.1, hs2.1]
    have hsep : (sepLine s o).length =
        max_date_width s o + max_icon_width + max_desc_width s o +
          max_tmax_width s o + max_tmin_width s o + max_precip_width s o +
          max_sunrise_width s o + max_sunset_width s o + 7 := by
      unfold sepLine
      rw [hno]
      simp only [Bool.false_eq_true, if_false, List.length_replicate]
    refine ⟨by rw [hrow, hhead], by rw [hsep, hhead]; omega⟩
  | true =>
    have g7 := dw_glue hs1.2 hs2.2
    have g6 := dw_glue hpc.2 g7.2
    have g5 := dw_glue htn.2 g6.2
    have g4 := dw_glue htx.2 g5.2
    have g3 := dw_glue hde.2 g4.2
    have g1 := dw_glue hd.2 g3.2
    have k7 := dw_glue hSr.2 hSs.2
    have k6 := dw_glue hPr.2 k7.2
    have k5 := dw_glue hLo.2 k6.2
    have k4 := dw_glue hHi.2 k5.2
    have k3 := dw_glue hWe.2 k4.2
    have k1 := dw_glue hD.2 k3.2
    have hhead : display_width (headerLine s o) =
        max_date_width s o + 1 + (max_desc_width s o + 1 +
          (max_tmax_width s o + 1 + (max_tmin_width s o + 1 +
          (max_precip_width s o + 1 + (max_sunrise_width s o + 1 +
          max_sunset_width s o))))) := by
      unfold headerLine
      rw [hno]
      simp only [if_true]
      rw [k1.1, k3.1, k4.1, k5.1, k6.1, k7.1, hD.1, hWe.1, hHi.1,
        hLo.1, hPr.1, hSr.1, hSs.1]
    have hrow : display_width (rowLine s o i) =
        max_date_width s o + 1 + (max_desc_width s o + 1 +
          (max_tmax_width s o + 1 + (max_tmin_width s o + 1 +
          (max_precip_width s o + 1 + (max_sunrise_width s o + 1 +
          max_sunset_width s o))))) := by
      unfold rowLine
      dsimp only
      rw [hno]
      simp only [if_true]
      rw [g1.1, g3.1, g4.1, g5.1, g6.1, g7.1, hd.1, hde.1, htx.1,
        htn.1, hpc.1, hs1.1, hs2.1]
    have hsep : (sepLine s o).length =
        max_date_width s o + max_desc_width s o +
          max_tmax_width s o + max_tmin_width s o + max_precip_width s o +
          max_sunrise_width s o + max_sunset_width s o + 6 := by
      unfold sepLine
      rw [hno]
      simp only [if_true, List.length_replicate]
    refine ⟨by rw [hrow, hhead], by rw [hsep, hhead]; omega⟩

def partlySeries : Series :=
  { dates := ["2025-01-01".data]
    tmax := ["21.5".data]
    tmin := ["10.1".data]
    precip := ["0.0".data]
    sunrises := ["2025-01-01T06:30".data]
    sunsets := ["2025-01-01T17:45".data]
    wcodes := [.num (.finite 1 0)] }

def partlyOpts : Opts := { days := 1, noEmoji := false, tempSym := "°C".data }

set_option maxHeartbeats 1600000 in
/-- C9 counterexample: with an emoji icon cell (code 1, icon `⛅`, one
code point wide in characters but two columns wide on screen) the data
row has one CHARACTER fewer than the header row, because data cells are
padded by display width while the header is padded by character count —
so "same total character count as the header row" is false. -/
theorem C9_counterexample :
    (rowLine partlySeries partlyOpts 0).length ≠
      (headerLine partlySeries partlyOpts).length := by
  decide

set_option maxHeartbeats 1600000 in
theorem C9_witness :
    display_width (rowLine partlySeries partlyOpts 0) =
      display_width (headerLine partlySeries partlyOpts) ∧
    (sepLine partlySeries partlyOpts).length =
      display_width (headerLine partlySeries partlyOpts) :=
  C9_amended partlySeries partlyOpts (by decide) 0 (by decide)

/-! ### Claim C8: save/load round trip -/

theorem registerRow_nodup (m : PyDict AirportRecord) (row : Row)
    (r : AirportRecord) (h : (dictKeys m).Nodup) :
    (dictKeys (registerRow m row r)).Nodup := by
  unfold registerRow
  dsimp only
  split_ifs <;>
    first
    | exact h
    | exact nodup_dictKeys_dset _ _ _ h
    | exact nodup_dictKeys_dset _ _ _ (nodup_dictKeys_dset _ _ _ h)
    | exact nodup_dictKeys_dset _ _ _ (nodup_dictKeys_dset _ _ _
        (nodup_dictKeys_dset _ _ _ h))
    | exact nodup_dictKeys_dset _ _ _ (nodup_dictKeys_dset _ _ _
        (nodup_dictKeys_dset _ _ _ (nodup_dictKeys_dset _ _ _ h)))

theorem processRow_nodup (m0 m1 : PyDict AirportRecord) (row : Row)
    (hp : processRow m0 row = .ok m1) (h : (dictKeys m0).Nodup) :
    (dictKeys m1).Nodup := by
  unfold processRow at hp
  cases hlat : pyParseFloat row.latitude_deg with
  | none =>
    rw [hlat] at hp
    cases hlon : pyParseFloat row.longitude_deg <;> rw [hlon] at hp <;>
      simp only [Except.ok.injEq] at hp <;> exact hp ▸ h
  | some lat =>
    cases hlon : pyParseFloat row.longitude_deg with
    | none =>
      rw [hlat, hlon] at hp
      simp only [Except.ok.injEq] at hp
      exact hp ▸ h
    | some lon =>
      rw [hlat, hlon] at hp
      dsimp only at hp
      by_cases hname : (pyStrip row.name).isEmpty = true
      · rw [if_pos hname] at hp
        simp only [Except.ok.injEq] at hp
        exact hp ▸ h
      · rw [if_neg hname] at hp
        cases he : parseElev row.elevation_ft with
        | error e => rw [he] at hp; exact absurd hp (by simp)
        | ok elev =>
          rw [he] at hp
          simp only [Except.ok.injEq] at hp
          exact hp ▸ registerRow_nodup m0 row _ h

theorem update_nodup (rows : List Row) (m : PyDict AirportRecord)
    (hu : update_airports rows = .ok m) : (dictKeys m).Nodup := by
  have key : ∀ (l : List Row) (m0 mf : PyDict AirportRecord),
      (dictKeys m0).Nodup → l.foldl buildStep (.ok m0) = .ok mf →
      (dictKeys mf).Nodup := by
    intro l
    induction l with
    | nil =>
      intro m0 mf h0 hf
      simp only [List.foldl_nil, Except.ok.injEq] at hf
      exact hf ▸ h0
    | cons r rest ih =>
      intro m0 mf h0 hf
      rw [List.foldl_cons] at hf
      cases hp : processRow m0 r with
      | error e =>
        rw [show buildStep (Except.ok m0) r = processRow m0 r from rfl, hp,
          foldl_buildStep_error] at hf
        exact absurd hf (by simp)
      | ok m1 =>
        rw [show buildStep (Except.ok m0) r = processRow m0 r from rfl, hp] at hf
        exact ih m1 mf (processRow_nodup m0 m1 r hp h0) hf
  exact key rows [] m List.nodup_nil hu

theorem foldl_dset_append {α β : Type} (g : PyStr → PyStr) (f : PyStr × α → β) :
    ∀ (m : List (PyStr × α)) (d : PyDict β),
      (m.map (fun kv => g kv.1)).Nodup →
      (∀ k ∈ m.map (fun kv => g kv.1), k ∉ dictKeys d) →
      m.foldl (fun d2 kv => dset d2 (g kv.1) (f kv)) d =
        d ++ m.map (fun kv => (g kv.1, f kv)) := by
  intro m
  induction m with
  | nil =>
    intro d _ _
    simp
  | cons kv rest ih =>
    intro d hnd hdis
    rw [List.map_cons] at hnd hdis
    have hne : g kv.1 ∉ dictKeys d := hdis _ (List.mem_cons_self _ _)
    have hset : dset d (g kv.1) (f kv) = d ++ [(g kv.1, f kv)] := by
      unfold dset
      rw [if_neg hne]
    rw [List.foldl_cons, hset, ih]
    · rw [List.map_cons, List.append_assoc]
      rfl
    · exact (List.nodup_cons.mp hnd).2
    · intro k hk
      have hkeys : dictKeys (d ++ [(g kv.1, f kv)]) = dictKeys d ++ [g kv.1] := by
        simp [dictKeys]
      rw [hkeys]
      intro hmem
      rcases List.mem_append.mp hmem with hmem1 | hmem1
      · exact hdis k (List.mem_cons_of_mem _ hk) hmem1
      · rw [List.mem_singleton] at hmem1
        exact (List.nodup_cons.mp hnd).1 (hmem1 ▸ hk)

theorem loadDict_persist (r : AirportRecord) :
    loadDict (persistRecord r) = r := rfl

set_option maxHeartbeats 800000 in
/-- C8 amended: for any index produced by `update_airports` whose keys
are all already uppercase (as when every registered code is uppercase —
ICAO and IATA always are, since the build uppercases them), the
`save_airports` / `load_airports` round trip returns the identical
dict, so every lookup — found or not-found — is unchanged.  (Without
that restriction the claim fails: local/GPS codes are registered
unuppercased, and the round trip uppercases their keys — see the
counterexample.) -/
theorem C8_amended (rows : List Row) (m : PyDict AirportRecord)
    (hu : update_airports rows = .ok m)
    (hk : ∀ k ∈ dictKeys m, pyUpperStr k = k) :
    load_airports (save_airports m) = m ∧
    ∀ code : PyStr,
      lookupCode (load_airports (save_airports m)) code = lookupCode m code := by
  have hnd : (dictKeys m).Nodup := update_nodup rows m hu
  have hmap : m.map (fun kv => pyUpperStr kv.1) = dictKeys m := by
    unfold dictKeys
    apply List.map_congr_left
    intro kv hkv
    exact hk kv.1 (List.mem_map.mpr ⟨kv, hkv, rfl⟩)
  have hnd2 : (m.map (fun kv => pyUpperStr kv.1)).Nodup := by
    rw [hmap]
    exact hnd
  have hdis : ∀ k ∈ m.map (fun kv => pyUpperStr kv.1),
      k ∉ dictKeys ([] : PyDict PersistedEntry) := by
    intro k _
    simp [dictKeys]
  have hdis2 : ∀ k ∈ m.map (fun kv => pyUpperStr kv.1),
      k ∉ dictKeys ([] : PyDict AirportRecord) := by
    intro k _
    simp [dictKeys]
  have hsave : save_airports m = m.map
      (fun kv => (pyUpperStr kv.1, PersistedEntry.dictE (persistRecord kv.2))) := by
    unfold save_airports
    rw [foldl_dset_append pyUpperStr
      (fun kv => PersistedEntry.dictE (persistRecord kv.2)) m [] hnd2 hdis]
    rw [List.nil_append]
  have hmapback : m.map (fun kv => (pyUpperStr kv.1, loadDict (persistRecord kv.2)))
      = m := by
    have h1 : m.map (fun kv => (pyUpperStr kv.1, loadDict (persistRecord kv.2)))
        = m.map id := by
      apply List.map_congr_left
      intro kv hkv
      rw [loadDict_persist, hk kv.1 (List.mem_map.mpr ⟨kv, hkv, rfl⟩)]
      rfl
    rw [h1, List.map_id]
  have hsave2 : save_airports m = m.map
      (fun kv => (kv.1, PersistedEntry.dictE (persistRecord kv.2))) := by
    rw [hsave]
    apply List.map_congr_left
    intro kv hkv
    rw [hk kv.1 (List.mem_map.mpr ⟨kv, hkv, rfl⟩)]
  have hload : load_airports (save_airports m) = m := by
    rw [hsave2]
    unfold load_airports
    rw [List.foldl_map]
    have h2 := foldl_dset_append pyUpperStr
      (fun kv => loadDict (persistRecord kv.2)) m [] hnd2 hdis2
    exact h2.trans (by rw [List.nil_append, hmapback])
  exact ⟨hload, fun code => by rw [hload]⟩

def kjfkRow : Row :=
  { icao_code := "KJFK".data, iata_code := "JFK".data
    name := "John F Kennedy".data, municipality := "New York".data
    iso_country := "US".data, iso_region := "US-NY".data
    local_code := "JFK".data, gps_code := "KJFK".data
    elevation_ft := "13".data, type := "large_airport".data
    scheduled_service := "yes".data
    latitude_deg := "40.6398".data, longitude_deg := "-73.7789".data }

def kjfkIndex : PyDict AirportRecord :=
  (update_airports [kjfkRow]).toOption.getD []

set_option maxHeartbeats 1600000 in
theorem C8_witness :
    load_airports (save_airports kjfkIndex) = kjfkIndex ∧
    ∀ code : PyStr,
      lookupCode (load_airports (save_airports kjfkIndex)) code =
        lookupCode kjfkIndex code :=
  C8_amended [kjfkRow] kjfkIndex (by decide) (by decide)

def rowLocalAB : Row :=
  { rowFirst with
    icao_code := []
    name := "Alpha Bravo".data
    local_code := "ab".data }

set_option maxHeartbeats 1600000 in
/-- C8 counterexample: a build registers the lowercase local code "ab"
under the key `"ab"`; case-insensitive lookup of "ab" (which probes the
uppercased key "AB") misses in the original index, but after the
save/load round trip — which uppercases every key — the same lookup
succeeds: a code changed from not-found to found, refuting the claim. -/
theorem C8_counterexample :
    (update_airports [rowLocalAB]).toOption.map (fun m =>
      ((lookupCode m "ab".data).isSome,
       (lookupCode (load_airports (save_airports m)) "ab".data).isSome)) =
      some (false, true) := by
  decide
